import Mathlib

/-!
# Link-layer scanner (`ll_scanner.c`): shallow embedding and verified properties

The C module keeps its whole state in file-scope globals (`m_scanner`,
`m_rx_buf`, `m_tx_buf`) and talks to the nRF51 peripherals through register
writes and through the radio driver of `radio.h`.  The embedding below passes
that state explicitly:

* `Machine` gathers the three globals and the part of the hardware the module
  touches (`Hw`);
* registers with set/clear semantics (`NRF_PPI->CHEN`, `NRF_TIMER0->INTEN`) are
  32-bit values held as `Nat`;
* calls into the radio driver and plain configuration stores are appended, in
  program order, to `Hw.trace`;
* the radio driver itself (`radio.c`) is not part of the module: what one of its
  calls does to the two registers is the parameter `Hw.driver`;
* every interface function of the C file is a total Lean function on `Machine`.
-/

namespace LlScanner

set_option linter.unusedVariables false

/-! ## Data model -/

/-- Possible scanner states (`m_state_t`, lines 53-61). -/
inductive m_state_t where
  | SCANNER_STATE_NOT_INITIALIZED
  | SCANNER_STATE_INITIALIZED
  | SCANNER_STATE_IDLE
  | SCANNER_STATE_RECEIVE_ADV
  | SCANNER_STATE_SEND_REQ
  | SCANNER_STATE_RECEIVE_SCAN_RSP
  deriving DecidableEq, Repr

/-- Possible packet types (`m_packet_type_t`, lines 65-72), as the integer
values the header nibble is compared with. -/
def PACKET_TYPE_ADV_IND : Nat := 0x00

/-- Packet type `ADV_NONCONN_IND`. -/
def PACKET_TYPE_ADV_NONCONN_IND : Nat := 0x02

/-- Packet type `SCAN_RSP`. -/
def PACKET_TYPE_SCAN_RSP : Nat := 0x04

/-- Packet type `ADV_SCAN_IND`. -/
def PACKET_TYPE_ADV_SCAN_IND : Nat := 0x06

/-- Packet type `ADV_DIRECT_IND`. -/
def PACKET_TYPE_ADV_DIRECT_IND : Nat := 0x08

/-- Status codes returned by the interface functions.  The enumeration
`btle_status_codes_t` is declared in `btle.h`; the module uses exactly these two
of its values. -/
inductive btle_status_codes_t where
  | BTLE_STATUS_CODE_SUCCESS
  | BTLE_STATUS_CODE_COMMAND_DISALLOWED
  deriving DecidableEq, Repr

/-- Scan parameters (`scanner_params_t`, lines 74-79).  The three field types
are enumerations of `btle.h`; they are only stored, never inspected, so each is
kept as its integer value. -/
structure scanner_params_t where
  scan_type : Nat
  own_address_type : Nat
  scanning_filter_policy : Nat
  deriving DecidableEq, Repr

/-- The anonymous struct behind the global `m_scanner` (lines 81-85). -/
structure m_scanner_t where
  params : scanner_params_t
  state : m_state_t
  deriving DecidableEq, Repr

/-- The two static buffers, as the pointers handed to the radio driver. -/
inductive Buffer where
  | m_rx_buf
  | m_tx_buf
  deriving DecidableEq, Repr

/-- Peripheral events and tasks whose addresses are stored in PPI channel
end points by `ll_scan_start`. -/
inductive Endpoint where
  | RADIO_EVENTS_END
  | RADIO_EVENTS_READY
  | TIMER0_EVENTS_COMPARE (n : Nat)
  | TIMER0_TASKS_CAPTURE (n : Nat)
  | GPIOTE_TASKS_OUT (n : Nat)
  deriving DecidableEq, Repr

/-- Initial output level of a GPIOTE channel (`GPIOTE_CONFIG_OUTINIT_*`). -/
inductive OutInit where
  | Low
  | High
  deriving DecidableEq, Repr

/-- Calls into the radio driver and plain configuration stores, in the order
the module issues them. -/
inductive HwCall where
  | radio_init (channel : Nat)
  | radio_receive_prepare_and_start (buf : Buffer) (flag : Bool)
  | radio_transmit_prepare (buf : Buffer)
  | radio_transmit_abort
  | PPI_CH_EEP (ch : Nat) (ev : Endpoint)
  | PPI_CH_TEP (ch : Nat) (task : Endpoint)
  | GPIOTE_CONFIG_task_toggle (idx : Nat) (psel : Nat) (outinit : OutInit)
  | NVIC_EnableIRQ_TIMER0
  deriving DecidableEq, Repr

/-- Modelled from the spec: the radio driver behind `radio.h` is absent.  The
module shares two registers with it, `NRF_PPI->CHEN` and `NRF_TIMER0->INTEN`
(the module never sets the channel-4 and compare-1 bits that its timer callback
clears), so the driver is a parameter: the values `(CHEN, INTEN)` it leaves
after a call, given the call and the values before it. -/
abbrev Driver : Type := HwCall → Nat × Nat → Nat × Nat

/-- The hardware as far as the module reads or writes it, and the driver it
calls. -/
structure Hw where
  /-- Register `NRF_RADIO->CRCSTATUS`, written by the radio only. -/
  RADIO_CRCSTATUS : Nat
  /-- Register `NRF_PPI->CHEN`, changed through `CHENSET` and `CHENCLR`. -/
  PPI_CHEN : Nat
  /-- Register `NRF_TIMER0->INTEN`, changed through `INTENCLR`. -/
  TIMER0_INTEN : Nat
  /-- Driver calls and configuration stores issued so far. -/
  trace : List HwCall
  /-- The radio driver linked with the module. -/
  driver : Driver

/-- All state of the module: the globals and the hardware. -/
structure Machine where
  m_scanner : m_scanner_t
  m_rx_buf : List Nat
  m_tx_buf : List Nat
  hw : Hw

/-- Initial contents of `m_tx_buf` (lines 93-100). -/
def m_tx_buf_init : List Nat :=
  [ 0xC3,
    0x0C,
    0x00,
    0xDE, 0xDE, 0xDE, 0xDE, 0xDE, 0xDE,
    0x00, 0x00, 0x00, 0x00, 0x00, 0x00 ]

/-- The buffers have the sizes of their C declarations: `m_rx_buf[255]` and the
15 initialisers of `m_tx_buf`. -/
def Machine.WellSized (m : Machine) : Prop :=
  m.m_rx_buf.length = 255 ∧ m.m_tx_buf.length = 15

instance (m : Machine) : Decidable m.WellSized := by
  unfold Machine.WellSized; infer_instance

/-- The globals as the C start-up code leaves them (zero-initialised statics
and the initialised `m_tx_buf`), over a given hardware state. -/
def Machine.initial (hw : Hw) : Machine :=
  { m_scanner :=
      { params := { scan_type := 0, own_address_type := 0, scanning_filter_policy := 0 }
        state := m_state_t.SCANNER_STATE_NOT_INITIALIZED }
    m_rx_buf := List.replicate 255 0
    m_tx_buf := m_tx_buf_init
    hw := hw }

/-! ## Hardware primitives -/

/-- Modelled from the spec: the device header with the nRF51 bit-field masks is
absent; this is the bit of PPI channel 4, the hardware event chain that
`OnTimerDeadline` disables. -/
def PPI_CHENCLR_CH4_Msk : Nat := 2 ^ 4

/-- Modelled from the spec: the device header is absent; this is the bit of PPI
channel 5, enabled by `ll_scan_start`. -/
def PPI_CHENSET_CH5_Msk : Nat := 2 ^ 5

/-- Modelled from the spec: the device header is absent; this is the
compare-1 interrupt bit of TIMER0, the timeout notification that
`OnTimerDeadline` disables. -/
def TIMER_INTENCLR_COMPARE1_Msk : Nat := 2 ^ 17

/-- Writing `mask` to a write-one-to-clear register alias (`CHENCLR`,
`INTENCLR`): the bits set in `mask` are cleared in the 32-bit register. -/
def reg_clear (reg mask : Nat) : Nat :=
  reg &&& (0xFFFFFFFF ^^^ (mask % 2 ^ 32))

/-- Writing `mask` to a write-one-to-set register alias (`CHENSET`). -/
def reg_set (reg mask : Nat) : Nat :=
  reg ||| (mask % 2 ^ 32)

/-- A plain configuration store by the module itself: it is appended to the
trace. -/
def Machine.store (m : Machine) (c : HwCall) : Machine :=
  { m with hw := { m.hw with trace := m.hw.trace ++ [c] } }

/-- A call into the radio driver: it is appended to the trace, and the driver
leaves its values in `CHEN` and `INTEN`. -/
def Machine.call (m : Machine) (c : HwCall) : Machine :=
  { m with hw := { m.hw with
      PPI_CHEN := (m.hw.driver c (m.hw.PPI_CHEN, m.hw.TIMER0_INTEN)).1
      TIMER0_INTEN := (m.hw.driver c (m.hw.PPI_CHEN, m.hw.TIMER0_INTEN)).2
      trace := m.hw.trace ++ [c] } }

/-- Modelled from the spec: the radio driver is absent.  The spec has every
radio operation guarded by a timeout on one timer compare channel, and the
transmit launched by a hardware event chain; this driver enables the compare-1
interrupt when it arms a receive or a transmit, enables PPI channel 4 when it
arms a transmit, and leaves both registers alone otherwise. -/
def spec_driver : Driver := fun c regs =>
  match c with
  | HwCall.radio_transmit_prepare _ =>
    (reg_set regs.1 PPI_CHENCLR_CH4_Msk, reg_set regs.2 TIMER_INTENCLR_COMPARE1_Msk)
  | HwCall.radio_receive_prepare_and_start _ _ =>
    (regs.1, reg_set regs.2 TIMER_INTENCLR_COMPARE1_Msk)
  | _ => regs

/-- The assignment `m_scanner.state = st`. -/
def Machine.setState (m : Machine) (st : m_state_t) : Machine :=
  { m with m_scanner := { m.m_scanner with state := st } }

/-- Forward byte copy `memcpy(&dst[d], &src[s], n)` between two distinct
buffers. -/
def memcpy (dst : List Nat) (d : Nat) (src : List Nat) (s : Nat) : Nat → List Nat
  | 0 => dst
  | n + 1 => memcpy (dst.set d (src.getD s 0)) (d + 1) src (s + 1) n

/-! ## Static functions (lines 141-184) -/

/-- Entry function of the initialised state. -/
def m_state_init_entry (m : Machine) : Machine :=
  m.setState m_state_t.SCANNER_STATE_INITIALIZED

/-- Exit function of the initialised state (empty body). -/
def m_state_init_exit (m : Machine) : Machine := m

/-- Entry function of the idle state (empty body). -/
def m_state_idle_entry (m : Machine) : Machine := m

/-- Entry function of the advertisement-receive state. -/
def m_state_receive_adv_entry (m : Machine) : Machine :=
  let m := m.setState m_state_t.SCANNER_STATE_RECEIVE_ADV
  let m := m.call (HwCall.radio_init 39)
  m.call (HwCall.radio_receive_prepare_and_start Buffer.m_rx_buf true)

/-! ## Interface functions (lines 190-371) -/

/-- Radio callback `ll_scan_radio_cb` (lines 190-244). -/
def ll_scan_radio_cb (crc_valid : Bool) (m : Machine) : Machine :=
  match m.m_scanner.state with
  | m_state_t.SCANNER_STATE_RECEIVE_ADV =>
    if m.hw.RADIO_CRCSTATUS = 0 then
      m.call HwCall.radio_transmit_abort
    else
      let ty := m.m_rx_buf.getD 0 0 &&& 0x0F
      if ty = PACKET_TYPE_ADV_IND ∨ ty = PACKET_TYPE_ADV_SCAN_IND then
        let m := { m with m_tx_buf := memcpy m.m_tx_buf 9 m.m_rx_buf 3 6 }
        let m := m.call (HwCall.radio_transmit_prepare Buffer.m_tx_buf)
        m.setState m_state_t.SCANNER_STATE_SEND_REQ
      else if ty = PACKET_TYPE_ADV_DIRECT_IND ∨ ty = PACKET_TYPE_ADV_NONCONN_IND then
        m.call HwCall.radio_transmit_abort
      else
        m.call HwCall.radio_transmit_abort
  | m_state_t.SCANNER_STATE_SEND_REQ =>
    let m := m.call (HwCall.radio_receive_prepare_and_start Buffer.m_rx_buf false)
    m.setState m_state_t.SCANNER_STATE_RECEIVE_SCAN_RSP
  | m_state_t.SCANNER_STATE_RECEIVE_SCAN_RSP =>
    let m := m.call (HwCall.radio_receive_prepare_and_start Buffer.m_rx_buf false)
    m.setState m_state_t.SCANNER_STATE_RECEIVE_ADV
  | _ => m

/-- The two register writes shared by the three scanning cases of
`ll_scan_timer_cb`. -/
def timer_cb_disable (m : Machine) : Machine :=
  let m := { m with hw := { m.hw with PPI_CHEN := reg_clear m.hw.PPI_CHEN PPI_CHENCLR_CH4_Msk } }
  { m with hw := { m.hw with
      TIMER0_INTEN := reg_clear m.hw.TIMER0_INTEN TIMER_INTENCLR_COMPARE1_Msk } }

/-- Timer callback `ll_scan_timer_cb` (lines 246-268). -/
def ll_scan_timer_cb (m : Machine) : Machine :=
  match m.m_scanner.state with
  | m_state_t.SCANNER_STATE_RECEIVE_ADV => timer_cb_disable m
  | m_state_t.SCANNER_STATE_SEND_REQ => timer_cb_disable m
  | m_state_t.SCANNER_STATE_RECEIVE_SCAN_RSP => timer_cb_disable m
  | _ => m

/-- Function `ll_scan_reset` (lines 280-294). -/
def ll_scan_reset (m : Machine) : btle_status_codes_t × Machine :=
  if m.m_scanner.state = m_state_t.SCANNER_STATE_IDLE
      ∨ m.m_scanner.state = m_state_t.SCANNER_STATE_INITIALIZED then
    (btle_status_codes_t.BTLE_STATUS_CODE_SUCCESS, m)
  else
    (btle_status_codes_t.BTLE_STATUS_CODE_COMMAND_DISALLOWED, m)

/-- Function `ll_scan_init` (lines 270-278); the status of the inner
`ll_scan_reset` call is discarded, as in the source. -/
def ll_scan_init (m : Machine) : btle_status_codes_t × Machine :=
  let m := m.setState m_state_t.SCANNER_STATE_NOT_INITIALIZED
  let m := m_state_init_entry m
  let m := (ll_scan_reset m).2
  (btle_status_codes_t.BTLE_STATUS_CODE_SUCCESS, m)

/-- Function `ll_scan_prepare` (lines 296-320). -/
def ll_scan_prepare (scan_type address_type filter_policy : Nat) (m : Machine) :
    btle_status_codes_t × Machine :=
  if m.m_scanner.state ≠ m_state_t.SCANNER_STATE_INITIALIZED
      ∧ m.m_scanner.state ≠ m_state_t.SCANNER_STATE_IDLE then
    (btle_status_codes_t.BTLE_STATUS_CODE_COMMAND_DISALLOWED, m)
  else
    let m :=
      if m.m_scanner.state = m_state_t.SCANNER_STATE_INITIALIZED then
        m.setState m_state_t.SCANNER_STATE_IDLE
      else if m.m_scanner.state = m_state_t.SCANNER_STATE_IDLE then
        { m with m_scanner := { m.m_scanner with
            params := { scan_type := scan_type
                        own_address_type := address_type
                        scanning_filter_policy := filter_policy } } }
      else m
    let m := m_state_init_exit m
    let m := m_state_idle_entry m
    (btle_status_codes_t.BTLE_STATUS_CODE_SUCCESS, m)

/-- Debug pin numbers (lines 47-49). -/
def DBG_RADIO_END : Nat := 0

/-- Debug pin toggled when the radio is ready. -/
def DBG_RADIO_READY : Nat := 1

/-- Debug pin toggled when the timer starts the radio. -/
def DBG_RADIO_TIMER : Nat := 2

/-- The assignment `NRF_PPI->CHENSET = mask`. -/
def Machine.chenset (m : Machine) (mask : Nat) : Machine :=
  { m with hw := { m.hw with PPI_CHEN := reg_set m.hw.PPI_CHEN mask } }

/-- Function `ll_scan_start` (lines 322-366). -/
def ll_scan_start (m : Machine) : btle_status_codes_t × Machine :=
  let m := m.store (HwCall.PPI_CH_EEP 5 Endpoint.RADIO_EVENTS_END)
  let m := m.store (HwCall.PPI_CH_TEP 5 (Endpoint.TIMER0_TASKS_CAPTURE 1))
  let m := m.chenset PPI_CHENSET_CH5_Msk
  let m := m.store (HwCall.GPIOTE_CONFIG_task_toggle DBG_RADIO_END DBG_RADIO_END OutInit.Low)
  let m := m.store (HwCall.PPI_CH_EEP DBG_RADIO_END Endpoint.RADIO_EVENTS_END)
  let m := m.store (HwCall.PPI_CH_TEP DBG_RADIO_END (Endpoint.GPIOTE_TASKS_OUT DBG_RADIO_END))
  let m := m.chenset (1 <<< DBG_RADIO_END)
  let m := m.store (HwCall.GPIOTE_CONFIG_task_toggle DBG_RADIO_READY DBG_RADIO_READY OutInit.High)
  let m := m.store (HwCall.PPI_CH_EEP DBG_RADIO_READY Endpoint.RADIO_EVENTS_READY)
  let m := m.store (HwCall.PPI_CH_TEP DBG_RADIO_READY (Endpoint.GPIOTE_TASKS_OUT DBG_RADIO_READY))
  let m := m.chenset (1 <<< DBG_RADIO_READY)
  let m := m.store (HwCall.GPIOTE_CONFIG_task_toggle DBG_RADIO_TIMER DBG_RADIO_TIMER OutInit.Low)
  let m := m.store (HwCall.PPI_CH_EEP DBG_RADIO_TIMER (Endpoint.TIMER0_EVENTS_COMPARE 1))
  let m := m.store (HwCall.PPI_CH_TEP DBG_RADIO_TIMER (Endpoint.GPIOTE_TASKS_OUT DBG_RADIO_TIMER))
  let m := m.chenset (1 <<< DBG_RADIO_TIMER)
  let m := m.store HwCall.NVIC_EnableIRQ_TIMER0
  let m := m_state_receive_adv_entry m
  (btle_status_codes_t.BTLE_STATUS_CODE_SUCCESS, m)

/-- Function `ll_scan_stop` (lines 368-371). -/
def ll_scan_stop (m : Machine) : btle_status_codes_t × Machine :=
  (btle_status_codes_t.BTLE_STATUS_CODE_SUCCESS, m)

/-- The radio writes a received packet into `m_rx_buf` and sets `CRCSTATUS`
between two callbacks; this is the environment's step. -/
def Machine.receive (m : Machine) (rx : List Nat) (crcstatus : Nat) : Machine :=
  { m with m_rx_buf := rx, hw := { m.hw with RADIO_CRCSTATUS := crcstatus } }

/-- A sample machine with well-sized buffers: the state, byte 0 of the receive
buffer and `CRCSTATUS` are as given, the parameters are `(1, 2, 3)`, PPI
channels 0..5 and the compare-1 interrupt are enabled, the trace is empty, the
driver is `spec_driver`. -/
def sample (st : m_state_t) (rx0 : Nat) (crcstatus : Nat) : Machine :=
  { m_scanner :=
      { params := { scan_type := 1, own_address_type := 2, scanning_filter_policy := 3 }
        state := st }
    m_rx_buf := [rx0, 0x25, 0x00, 0x11, 0x22, 0x33, 0x44, 0x55, 0x66] ++ List.replicate 246 0
    m_tx_buf := m_tx_buf_init
    hw := { RADIO_CRCSTATUS := crcstatus, PPI_CHEN := 0x3F, TIMER0_INTEN := 0x20000, trace := []
            driver := spec_driver } }

/-- The hardware after a reset of the chip: all three registers zero, nothing
issued yet, linked with the driver `spec_driver`. -/
def hw_reset : Hw :=
  { RADIO_CRCSTATUS := 0, PPI_CHEN := 0, TIMER0_INTEN := 0, trace := [], driver := spec_driver }

/-- The assignment of the three fields of `m_scanner.params`. -/
def Machine.setParams (m : Machine) (p : scanner_params_t) : Machine :=
  { m with m_scanner := { m.m_scanner with params := p } }

/-- The three states in which a scan is running. -/
def Machine.scanning (m : Machine) : Prop :=
  m.m_scanner.state = m_state_t.SCANNER_STATE_RECEIVE_ADV
    ∨ m.m_scanner.state = m_state_t.SCANNER_STATE_SEND_REQ
    ∨ m.m_scanner.state = m_state_t.SCANNER_STATE_RECEIVE_SCAN_RSP

instance (m : Machine) : Decidable m.scanning := by
  unfold Machine.scanning; infer_instance

/-- One event at the module's boundary: a call of an interface function with
its arguments, or the radio writing a packet and `CRCSTATUS`. -/
inductive Op where
  | init
  | reset
  | prepare (scan_type address_type filter_policy : Nat)
  | start
  | stop
  | radio_cb (crc_valid : Bool)
  | timer_cb
  | receive (rx : List Nat) (crcstatus : Nat)
  deriving DecidableEq, Repr

/-- The machine after one event; the returned status is dropped. -/
def step (op : Op) (m : Machine) : Machine :=
  match op with
  | Op.init => (ll_scan_init m).2
  | Op.reset => (ll_scan_reset m).2
  | Op.prepare a b c => (ll_scan_prepare a b c m).2
  | Op.start => (ll_scan_start m).2
  | Op.stop => (ll_scan_stop m).2
  | Op.radio_cb crc_valid => ll_scan_radio_cb crc_valid m
  | Op.timer_cb => ll_scan_timer_cb m
  | Op.receive rx crcstatus => m.receive rx crcstatus

/-- The machine after a finite sequence of events, first event first. -/
def run (ops : List Op) (m : Machine) : Machine :=
  ops.foldl (fun acc op => step op acc) m

/-- The events other than `ll_scan_init` and `ll_scan_start`. -/
def Op.notInitOrStart (op : Op) : Prop :=
  op ≠ Op.init ∧ op ≠ Op.start

instance (op : Op) : Decidable op.notInitOrStart := by
  unfold Op.notInitOrStart; infer_instance

/-- A run from reset to a received advertisement: `ll_scan_init`,
`ll_scan_prepare`, `ll_scan_start`, then the radio writes a packet with the
`ADV_IND` header 0x40 and sets `CRCSTATUS`. -/
def run_to_adv_received : Machine :=
  run [Op.init, Op.prepare 0 0 0, Op.start,
       Op.receive (sample m_state_t.SCANNER_STATE_RECEIVE_ADV 0x40 1).m_rx_buf 1]
    (Machine.initial hw_reset)

/-- The run `run_to_adv_received` continued by the radio callback, which arms
the scan request, and by a second `ll_scan_init`. -/
def run_to_second_init : Machine :=
  run [Op.radio_cb true, Op.init] run_to_adv_received

/-! ## Buffer copy -/

theorem memcpy_length (dst : List Nat) (d : Nat) (src : List Nat) (s n : Nat) :
    (memcpy dst d src s n).length = dst.length := by
  induction n generalizing dst d s with
  | zero => rfl
  | succ n ih => simp [memcpy, ih]

theorem memcpy_getElem? (dst : List Nat) (d : Nat) (src : List Nat) (s n j : Nat)
    (hs : s + n ≤ src.length) :
    (memcpy dst d src s n)[j]? =
      if d ≤ j ∧ j < d + n ∧ j < dst.length then src[s + (j - d)]? else dst[j]? := by
  induction n generalizing dst d s with
  | zero =>
    have : ¬ (d ≤ j ∧ j < d + 0 ∧ j < dst.length) := by omega
    rw [memcpy, if_neg this]
  | succ n ih =>
    have hlt : s < src.length := by omega
    rw [memcpy, ih _ _ _ (by omega)]
    simp only [List.length_set, List.getElem?_set]
    by_cases hj : d = j
    · subst hj
      have h1 : ¬ (d + 1 ≤ d ∧ d < d + 1 + n ∧ d < dst.length) := by omega
      rw [if_neg h1]
      by_cases hd : d < dst.length
      · have h2 : d ≤ d ∧ d < d + (n + 1) ∧ d < dst.length := by omega
        simp [hd, h2, List.getD_eq_getElem?_getD, List.getElem?_eq_getElem hlt]
      · have h2 : ¬ (d ≤ d ∧ d < d + (n + 1) ∧ d < dst.length) := by omega
        simp [hd, h2]
        omega
    · by_cases hc : d + 1 ≤ j ∧ j < d + 1 + n ∧ j < dst.length
      · have h2 : d ≤ j ∧ j < d + (n + 1) ∧ j < dst.length := by omega
        rw [if_pos hc, if_pos h2]
        congr 1
        omega
      · have h2 : ¬ (d ≤ j ∧ j < d + (n + 1) ∧ j < dst.length) := by omega
        rw [if_neg hc, if_neg h2]
        simp [hj]

/-! ## Unfolding lemmas for the radio callback -/

theorem radio_cb_crc_zero (crc_valid : Bool) (m : Machine)
    (hst : m.m_scanner.state = m_state_t.SCANNER_STATE_RECEIVE_ADV)
    (hcrc : m.hw.RADIO_CRCSTATUS = 0) :
    ll_scan_radio_cb crc_valid m = m.call HwCall.radio_transmit_abort := by
  simp [ll_scan_radio_cb, hst, hcrc]

theorem radio_cb_solicit (crc_valid : Bool) (m : Machine)
    (hst : m.m_scanner.state = m_state_t.SCANNER_STATE_RECEIVE_ADV)
    (hcrc : m.hw.RADIO_CRCSTATUS ≠ 0)
    (hty : m.m_rx_buf.getD 0 0 &&& 0x0F = 0x00 ∨ m.m_rx_buf.getD 0 0 &&& 0x0F = 0x06) :
    ll_scan_radio_cb crc_valid m =
      (({ m with m_tx_buf := memcpy m.m_tx_buf 9 m.m_rx_buf 3 6 } : Machine).call
        (HwCall.radio_transmit_prepare Buffer.m_tx_buf)).setState
          m_state_t.SCANNER_STATE_SEND_REQ := by
  simp only [ll_scan_radio_cb, hst, if_neg hcrc, PACKET_TYPE_ADV_IND, PACKET_TYPE_ADV_SCAN_IND]
  rw [if_pos hty]

theorem radio_cb_other (crc_valid : Bool) (m : Machine)
    (hst : m.m_scanner.state = m_state_t.SCANNER_STATE_RECEIVE_ADV)
    (hcrc : m.hw.RADIO_CRCSTATUS ≠ 0)
    (h0 : m.m_rx_buf.getD 0 0 &&& 0x0F ≠ 0x00) (h6 : m.m_rx_buf.getD 0 0 &&& 0x0F ≠ 0x06) :
    ll_scan_radio_cb crc_valid m = m.call HwCall.radio_transmit_abort := by
  have hty : ¬ (m.m_rx_buf.getD 0 0 &&& 0x0F = 0x00 ∨ m.m_rx_buf.getD 0 0 &&& 0x0F = 0x06) := by
    rintro (h | h)
    · exact h0 h
    · exact h6 h
  simp only [ll_scan_radio_cb, hst, if_neg hcrc, PACKET_TYPE_ADV_IND, PACKET_TYPE_ADV_SCAN_IND]
  rw [if_neg hty]
  split <;> rfl

theorem radio_cb_send_req (crc_valid : Bool) (m : Machine)
    (hst : m.m_scanner.state = m_state_t.SCANNER_STATE_SEND_REQ) :
    ll_scan_radio_cb crc_valid m =
      (m.call (HwCall.radio_receive_prepare_and_start Buffer.m_rx_buf false)).setState
        m_state_t.SCANNER_STATE_RECEIVE_SCAN_RSP := by
  simp [ll_scan_radio_cb, hst]

theorem radio_cb_receive_scan_rsp (crc_valid : Bool) (m : Machine)
    (hst : m.m_scanner.state = m_state_t.SCANNER_STATE_RECEIVE_SCAN_RSP) :
    ll_scan_radio_cb crc_valid m =
      (m.call (HwCall.radio_receive_prepare_and_start Buffer.m_rx_buf false)).setState
        m_state_t.SCANNER_STATE_RECEIVE_ADV := by
  simp [ll_scan_radio_cb, hst]

/-- The copy of the advertiser address: six bytes from offset 3 of the receive
buffer land at offset 9 of a 15-byte transmit buffer, the first nine bytes
stay. -/
theorem memcpy_adv_addr (tx rx : List Nat) (htx : tx.length = 15) (hrx : 9 ≤ rx.length) :
    memcpy tx 9 rx 3 6 = tx.take 9 ++ (rx.drop 3).take 6 := by
  apply List.ext_getElem?
  intro j
  rw [memcpy_getElem? _ _ _ _ _ _ (by omega)]
  by_cases hj : 9 ≤ j ∧ j < 9 + 6 ∧ j < tx.length
  · rw [if_pos hj, List.getElem?_append_right (by simp; omega)]
    simp only [List.length_take, htx]
    rw [List.getElem?_take_of_lt (by omega), List.getElem?_drop]
    simp
  · rw [if_neg hj]
    by_cases h9 : j < 9
    · rw [List.getElem?_append_left (by simp; omega), List.getElem?_take_of_lt h9]
    · have h15 : tx.length ≤ j := by omega
      rw [List.getElem?_eq_none h15, List.getElem?_eq_none]
      simp
      omega

/-- Every sample machine has buffers of the declared sizes. -/
theorem sample_wellSized (st : m_state_t) (rx0 crcstatus : Nat) :
    (sample st rx0 crcstatus).WellSized := by
  constructor
  · show ([rx0, 0x25, 0x00, 0x11, 0x22, 0x33, 0x44, 0x55, 0x66] ++ List.replicate 246 0).length
      = 255
    rw [List.length_append, List.length_replicate]
    rfl
  · rfl

/-! ## Properties of the radio callback -/

/-- C1, as the code has it: in the advertisement-receive state, when the
register `NRF_RADIO->CRCSTATUS` reads 0, the radio callback, whatever its
`crc_valid` argument and the receive buffer, only issues
`radio_transmit_abort`: the state, the parameters and both buffers stay, and no
transmit is prepared. -/
theorem radio_cb_crcstatus_zero_aborts (crc_valid : Bool) (m : Machine)
    (hst : m.m_scanner.state = m_state_t.SCANNER_STATE_RECEIVE_ADV)
    (hcrc : m.hw.RADIO_CRCSTATUS = 0) :
    (ll_scan_radio_cb crc_valid m).m_scanner.state = m_state_t.SCANNER_STATE_RECEIVE_ADV
      ∧ (ll_scan_radio_cb crc_valid m).hw.trace = m.hw.trace ++ [HwCall.radio_transmit_abort]
      ∧ (ll_scan_radio_cb crc_valid m).m_tx_buf = m.m_tx_buf
      ∧ (ll_scan_radio_cb crc_valid m).m_rx_buf = m.m_rx_buf
      ∧ (ll_scan_radio_cb crc_valid m).m_scanner.params = m.m_scanner.params := by
  rw [radio_cb_crc_zero crc_valid m hst hcrc]
  exact ⟨hst, rfl, rfl, rfl, rfl⟩

/-- Witness of `radio_cb_crcstatus_zero_aborts`: an `ADV_IND` header with
`CRCSTATUS = 0` and the argument `true`. -/
theorem radio_cb_crcstatus_zero_aborts_witness :
    (ll_scan_radio_cb true
        (sample m_state_t.SCANNER_STATE_RECEIVE_ADV 0x40 0)).m_scanner.state
        = m_state_t.SCANNER_STATE_RECEIVE_ADV
      ∧ (ll_scan_radio_cb true (sample m_state_t.SCANNER_STATE_RECEIVE_ADV 0x40 0)).hw.trace
        = [HwCall.radio_transmit_abort]
      ∧ (ll_scan_radio_cb true (sample m_state_t.SCANNER_STATE_RECEIVE_ADV 0x40 0)).m_tx_buf
        = m_tx_buf_init :=
  have h := radio_cb_crcstatus_zero_aborts true
    (sample m_state_t.SCANNER_STATE_RECEIVE_ADV 0x40 0) rfl rfl
  ⟨h.1, h.2.1, h.2.2.1⟩

/-- C1 fails as stated: with the argument `crc_valid = false`, the register
`CRCSTATUS = 1` and an `ADV_IND` header (0x40) in the receive buffer, the
callback leaves the advertisement-receive state, prepares a transmit and
rewrites the address field of the request. -/
theorem radio_cb_ignores_crc_valid_argument :
    (sample m_state_t.SCANNER_STATE_RECEIVE_ADV 0x40 1).m_scanner.state
        = m_state_t.SCANNER_STATE_RECEIVE_ADV
      ∧ (ll_scan_radio_cb false
          (sample m_state_t.SCANNER_STATE_RECEIVE_ADV 0x40 1)).m_scanner.state
        = m_state_t.SCANNER_STATE_SEND_REQ
      ∧ (ll_scan_radio_cb false (sample m_state_t.SCANNER_STATE_RECEIVE_ADV 0x40 1)).hw.trace
        = [HwCall.radio_transmit_prepare Buffer.m_tx_buf]
      ∧ (ll_scan_radio_cb false (sample m_state_t.SCANNER_STATE_RECEIVE_ADV 0x40 1)).m_tx_buf
        = [0xC3, 0x0C, 0x00, 0xDE, 0xDE, 0xDE, 0xDE, 0xDE, 0xDE,
           0x11, 0x22, 0x33, 0x44, 0x55, 0x66]
      ∧ (ll_scan_radio_cb false (sample m_state_t.SCANNER_STATE_RECEIVE_ADV 0x40 1)).m_tx_buf
        ≠ (sample m_state_t.SCANNER_STATE_RECEIVE_ADV 0x40 1).m_tx_buf := by
  refine ⟨rfl, rfl, rfl, rfl, ?_⟩
  decide

/-- C2: in the advertisement-receive state with a non-zero `CRCSTATUS` and a
header whose low nibble is 0x00 (`ADV_IND`) or 0x06 (`ADV_SCAN_IND`), the radio
callback enters the send-request state, prepares a transmit of `m_tx_buf`, and
afterwards bytes 9..14 of `m_tx_buf` are bytes 3..8 of `m_rx_buf`, in order. -/
theorem radio_cb_adv_ind_prepares_scan_req (crc_valid : Bool) (m : Machine)
    (hws : m.WellSized)
    (hst : m.m_scanner.state = m_state_t.SCANNER_STATE_RECEIVE_ADV)
    (hcrc : m.hw.RADIO_CRCSTATUS ≠ 0)
    (hty : m.m_rx_buf.getD 0 0 &&& 0x0F = 0x00 ∨ m.m_rx_buf.getD 0 0 &&& 0x0F = 0x06) :
    (ll_scan_radio_cb crc_valid m).m_scanner.state = m_state_t.SCANNER_STATE_SEND_REQ
      ∧ (ll_scan_radio_cb crc_valid m).hw.trace
          = m.hw.trace ++ [HwCall.radio_transmit_prepare Buffer.m_tx_buf]
      ∧ (ll_scan_radio_cb crc_valid m).m_tx_buf.length = 15
      ∧ (ll_scan_radio_cb crc_valid m).m_tx_buf.drop 9 = (m.m_rx_buf.drop 3).take 6
      ∧ (∀ i, i < 6 → (ll_scan_radio_cb crc_valid m).m_tx_buf[9 + i]? = m.m_rx_buf[3 + i]?)
      ∧ ((m.m_rx_buf.drop 3).take 6).length = 6 := by
  obtain ⟨hrx, htx⟩ := hws
  have hcopy := memcpy_adv_addr m.m_tx_buf m.m_rx_buf htx (by omega)
  rw [radio_cb_solicit crc_valid m hst hcrc hty]
  refine ⟨rfl, rfl, ?_, ?_, ?_, ?_⟩
  · show (memcpy m.m_tx_buf 9 m.m_rx_buf 3 6).length = 15
    rw [memcpy_length, htx]
  · show (memcpy m.m_tx_buf 9 m.m_rx_buf 3 6).drop 9 = _
    rw [hcopy, List.drop_left' (by simp; omega)]
  · intro i hi
    show (memcpy m.m_tx_buf 9 m.m_rx_buf 3 6)[9 + i]? = _
    rw [memcpy_getElem? _ _ _ _ _ _ (by omega), if_pos (by omega)]
    congr 1
    omega
  · simp
    omega

/-- Witness of `radio_cb_adv_ind_prepares_scan_req`: an `ADV_SCAN_IND` header
0x46 from the address 11:22:33:44:55:66. -/
theorem radio_cb_adv_ind_prepares_scan_req_witness :
    (ll_scan_radio_cb true
        (sample m_state_t.SCANNER_STATE_RECEIVE_ADV 0x46 1)).m_scanner.state
        = m_state_t.SCANNER_STATE_SEND_REQ
      ∧ (ll_scan_radio_cb true
          (sample m_state_t.SCANNER_STATE_RECEIVE_ADV 0x46 1)).m_tx_buf.drop 9
        = [0x11, 0x22, 0x33, 0x44, 0x55, 0x66] :=
  have h := radio_cb_adv_ind_prepares_scan_req true
    (sample m_state_t.SCANNER_STATE_RECEIVE_ADV 0x46 1)
    (sample_wellSized _ _ _) rfl (by decide) (Or.inr (by decide))
  ⟨h.1, h.2.2.2.1⟩

/-- C3: in the advertisement-receive state with a non-zero `CRCSTATUS` and a
header whose low nibble is neither 0x00 nor 0x06, the radio callback only issues
`radio_transmit_abort`: the state stays, no transmit is prepared, and the
request buffer, the receive buffer and the parameters are unchanged. -/
theorem radio_cb_other_type_aborts (crc_valid : Bool) (m : Machine)
    (hst : m.m_scanner.state = m_state_t.SCANNER_STATE_RECEIVE_ADV)
    (hcrc : m.hw.RADIO_CRCSTATUS ≠ 0)
    (h0 : m.m_rx_buf.getD 0 0 &&& 0x0F ≠ 0x00) (h6 : m.m_rx_buf.getD 0 0 &&& 0x0F ≠ 0x06) :
    (ll_scan_radio_cb crc_valid m).m_scanner.state = m_state_t.SCANNER_STATE_RECEIVE_ADV
      ∧ (ll_scan_radio_cb crc_valid m).hw.trace = m.hw.trace ++ [HwCall.radio_transmit_abort]
      ∧ (ll_scan_radio_cb crc_valid m).m_tx_buf = m.m_tx_buf
      ∧ (ll_scan_radio_cb crc_valid m).m_rx_buf = m.m_rx_buf
      ∧ (ll_scan_radio_cb crc_valid m).m_scanner.params = m.m_scanner.params := by
  rw [radio_cb_other crc_valid m hst hcrc h0 h6]
  exact ⟨hst, rfl, rfl, rfl, rfl⟩

/-- Witness of `radio_cb_other_type_aborts`: an `ADV_NONCONN_IND` header
0x42. -/
theorem radio_cb_other_type_aborts_witness :
    (ll_scan_radio_cb true
        (sample m_state_t.SCANNER_STATE_RECEIVE_ADV 0x42 1)).m_scanner.state
        = m_state_t.SCANNER_STATE_RECEIVE_ADV
      ∧ (ll_scan_radio_cb true (sample m_state_t.SCANNER_STATE_RECEIVE_ADV 0x42 1)).hw.trace
        = [HwCall.radio_transmit_abort] :=
  have h := radio_cb_other_type_aborts true
    (sample m_state_t.SCANNER_STATE_RECEIVE_ADV 0x42 1) rfl (by decide) (by decide) (by decide)
  ⟨h.1, h.2.1⟩

/-- C4: from the send-request state one radio callback starts a receive into
`m_rx_buf` and enters the scan-response-receive state; after the radio has
written any packet and any `CRCSTATUS`, a second callback starts a receive into
`m_rx_buf` and enters the advertisement-receive state.  Both steps hold for
every `crc_valid` argument, and the parameters and `m_tx_buf` are unchanged. -/
theorem radio_cb_scan_req_round_trip (cv1 cv2 : Bool) (m : Machine) (rx : List Nat)
    (crcstatus : Nat) (hst : m.m_scanner.state = m_state_t.SCANNER_STATE_SEND_REQ) :
    (ll_scan_radio_cb cv1 m).m_scanner.state = m_state_t.SCANNER_STATE_RECEIVE_SCAN_RSP
      ∧ (ll_scan_radio_cb cv1 m).hw.trace
          = m.hw.trace ++ [HwCall.radio_receive_prepare_and_start Buffer.m_rx_buf false]
      ∧ (ll_scan_radio_cb cv1 m).m_scanner.params = m.m_scanner.params
      ∧ (ll_scan_radio_cb cv1 m).m_tx_buf = m.m_tx_buf
      ∧ (ll_scan_radio_cb cv1 m).m_rx_buf = m.m_rx_buf
      ∧ (ll_scan_radio_cb cv2 ((ll_scan_radio_cb cv1 m).receive rx crcstatus)).m_scanner.state
          = m_state_t.SCANNER_STATE_RECEIVE_ADV
      ∧ (ll_scan_radio_cb cv2 ((ll_scan_radio_cb cv1 m).receive rx crcstatus)).hw.trace
          = m.hw.trace ++ [HwCall.radio_receive_prepare_and_start Buffer.m_rx_buf false,
                           HwCall.radio_receive_prepare_and_start Buffer.m_rx_buf false]
      ∧ (ll_scan_radio_cb cv2 ((ll_scan_radio_cb cv1 m).receive rx crcstatus)).m_scanner.params
          = m.m_scanner.params
      ∧ (ll_scan_radio_cb cv2 ((ll_scan_radio_cb cv1 m).receive rx crcstatus)).m_tx_buf
          = m.m_tx_buf
      ∧ (ll_scan_radio_cb cv2 ((ll_scan_radio_cb cv1 m).receive rx crcstatus)).m_rx_buf
          = rx := by
  have h1 := radio_cb_send_req cv1 m hst
  have h2 := radio_cb_receive_scan_rsp cv2 ((ll_scan_radio_cb cv1 m).receive rx crcstatus)
    (by rw [h1]; rfl)
  rw [h2, h1]
  refine ⟨rfl, rfl, rfl, rfl, rfl, rfl, ?_, rfl, rfl, rfl⟩
  simp [Machine.call, Machine.setState, Machine.receive]

/-- Witness of `radio_cb_scan_req_round_trip`: a corrupt packet (`CRCSTATUS = 0`)
arrives between the two callbacks. -/
theorem radio_cb_scan_req_round_trip_witness :
    (ll_scan_radio_cb false
        (sample m_state_t.SCANNER_STATE_SEND_REQ 0x40 1)).m_scanner.state
        = m_state_t.SCANNER_STATE_RECEIVE_SCAN_RSP
      ∧ (ll_scan_radio_cb true
          ((ll_scan_radio_cb false (sample m_state_t.SCANNER_STATE_SEND_REQ 0x40 1)).receive
            [0x44, 0x00] 0)).m_scanner.state
        = m_state_t.SCANNER_STATE_RECEIVE_ADV :=
  have h := radio_cb_scan_req_round_trip false true
    (sample m_state_t.SCANNER_STATE_SEND_REQ 0x40 1) [0x44, 0x00] 0 rfl
  ⟨h.1, h.2.2.2.2.2.1⟩

/-! ## Properties of the command functions -/

/-- C5: in every state other than initialised and idle, `ll_scan_prepare`
returns `COMMAND_DISALLOWED` and changes nothing, whatever its arguments. -/
theorem prepare_disallowed_unchanged (a b c : Nat) (m : Machine)
    (hinit : m.m_scanner.state ≠ m_state_t.SCANNER_STATE_INITIALIZED)
    (hidle : m.m_scanner.state ≠ m_state_t.SCANNER_STATE_IDLE) :
    ll_scan_prepare a b c m = (btle_status_codes_t.BTLE_STATUS_CODE_COMMAND_DISALLOWED, m) := by
  unfold ll_scan_prepare
  rw [if_pos ⟨hinit, hidle⟩]

/-- Witness of `prepare_disallowed_unchanged` in the advertisement-receive
state. -/
theorem prepare_disallowed_unchanged_witness :
    ll_scan_prepare 1 0 1 (sample m_state_t.SCANNER_STATE_RECEIVE_ADV 0x40 1)
      = (btle_status_codes_t.BTLE_STATUS_CODE_COMMAND_DISALLOWED,
         sample m_state_t.SCANNER_STATE_RECEIVE_ADV 0x40 1) :=
  prepare_disallowed_unchanged 1 0 1 (sample m_state_t.SCANNER_STATE_RECEIVE_ADV 0x40 1)
    (by decide) (by decide)

/-- Function `ll_scan_init` always succeeds and only sets the state. -/
theorem ll_scan_init_eq (m : Machine) :
    ll_scan_init m = (btle_status_codes_t.BTLE_STATUS_CODE_SUCCESS,
      m.setState m_state_t.SCANNER_STATE_INITIALIZED) := by
  simp [ll_scan_init, ll_scan_reset, m_state_init_entry, Machine.setState]

/-- Function `ll_scan_prepare` from the initialised state. -/
theorem ll_scan_prepare_initialized (a b c : Nat) (m : Machine)
    (hst : m.m_scanner.state = m_state_t.SCANNER_STATE_INITIALIZED) :
    ll_scan_prepare a b c m = (btle_status_codes_t.BTLE_STATUS_CODE_SUCCESS,
      m.setState m_state_t.SCANNER_STATE_IDLE) := by
  simp [ll_scan_prepare, hst, m_state_init_exit, m_state_idle_entry]

/-- Function `ll_scan_prepare` from the idle state. -/
theorem ll_scan_prepare_idle (a b c : Nat) (m : Machine)
    (hst : m.m_scanner.state = m_state_t.SCANNER_STATE_IDLE) :
    ll_scan_prepare a b c m = (btle_status_codes_t.BTLE_STATUS_CODE_SUCCESS,
      { m with m_scanner := { m.m_scanner with
          params := { scan_type := a, own_address_type := b, scanning_filter_policy := c } } }) := by
  simp [ll_scan_prepare, hst, m_state_init_exit, m_state_idle_entry]

/-- C6: from any machine, `ll_scan_init` followed by two calls of
`ll_scan_prepare a b c` succeeds at each step and ends in the idle state with
the parameters `(a, b, c)` stored. -/
theorem init_prepare_prepare (a b c : Nat) (m : Machine) :
    (ll_scan_init m).1 = btle_status_codes_t.BTLE_STATUS_CODE_SUCCESS
      ∧ (ll_scan_prepare a b c (ll_scan_init m).2).1
          = btle_status_codes_t.BTLE_STATUS_CODE_SUCCESS
      ∧ (ll_scan_prepare a b c (ll_scan_prepare a b c (ll_scan_init m).2).2).1
          = btle_status_codes_t.BTLE_STATUS_CODE_SUCCESS
      ∧ (ll_scan_prepare a b c (ll_scan_prepare a b c (ll_scan_init m).2).2).2.m_scanner.state
          = m_state_t.SCANNER_STATE_IDLE
      ∧ (ll_scan_prepare a b c (ll_scan_prepare a b c (ll_scan_init m).2).2).2.m_scanner.params
          = { scan_type := a, own_address_type := b, scanning_filter_policy := c } := by
  rw [ll_scan_init_eq]
  rw [ll_scan_prepare_initialized a b c _ rfl]
  rw [ll_scan_prepare_idle a b c _ rfl]
  exact ⟨rfl, rfl, rfl, rfl, rfl⟩

/-- C7: `ll_scan_prepare` in the initialised state succeeds, enters the idle
state and leaves the stored parameters (and everything else) as they were; in
the idle state it succeeds, stores exactly its three arguments and stays
idle. -/
theorem prepare_asymmetric (a b c : Nat) (m : Machine) :
    (m.m_scanner.state = m_state_t.SCANNER_STATE_INITIALIZED →
        (ll_scan_prepare a b c m).1 = btle_status_codes_t.BTLE_STATUS_CODE_SUCCESS
        ∧ (ll_scan_prepare a b c m).2.m_scanner.state = m_state_t.SCANNER_STATE_IDLE
        ∧ (ll_scan_prepare a b c m).2.m_scanner.params = m.m_scanner.params
        ∧ (ll_scan_prepare a b c m).2.m_rx_buf = m.m_rx_buf
        ∧ (ll_scan_prepare a b c m).2.m_tx_buf = m.m_tx_buf
        ∧ (ll_scan_prepare a b c m).2.hw = m.hw)
      ∧ (m.m_scanner.state = m_state_t.SCANNER_STATE_IDLE →
        (ll_scan_prepare a b c m).1 = btle_status_codes_t.BTLE_STATUS_CODE_SUCCESS
        ∧ (ll_scan_prepare a b c m).2.m_scanner.state = m_state_t.SCANNER_STATE_IDLE
        ∧ (ll_scan_prepare a b c m).2.m_scanner.params
            = { scan_type := a, own_address_type := b, scanning_filter_policy := c }
        ∧ (ll_scan_prepare a b c m).2.m_rx_buf = m.m_rx_buf
        ∧ (ll_scan_prepare a b c m).2.m_tx_buf = m.m_tx_buf
        ∧ (ll_scan_prepare a b c m).2.hw = m.hw) := by
  constructor
  · intro hst
    rw [ll_scan_prepare_initialized a b c m hst]
    exact ⟨rfl, rfl, rfl, rfl, rfl, rfl⟩
  · intro hst
    rw [ll_scan_prepare_idle a b c m hst]
    exact ⟨rfl, hst, rfl, rfl, rfl, rfl⟩

/-- Witness of `prepare_asymmetric`: the same arguments `(7, 8, 9)` are dropped
in the initialised state and stored in the idle state. -/
theorem prepare_asymmetric_witness :
    (ll_scan_prepare 7 8 9 (sample m_state_t.SCANNER_STATE_INITIALIZED 0 0)).2.m_scanner.params
        = { scan_type := 1, own_address_type := 2, scanning_filter_policy := 3 }
      ∧ (ll_scan_prepare 7 8 9 (sample m_state_t.SCANNER_STATE_IDLE 0 0)).2.m_scanner.params
        = { scan_type := 7, own_address_type := 8, scanning_filter_policy := 9 } :=
  ⟨((prepare_asymmetric 7 8 9 (sample m_state_t.SCANNER_STATE_INITIALIZED 0 0)).1 rfl).2.2.1,
   ((prepare_asymmetric 7 8 9 (sample m_state_t.SCANNER_STATE_IDLE 0 0)).2 rfl).2.2.1⟩

/-- C8: `ll_scan_reset` never changes the machine; it returns
`COMMAND_DISALLOWED` exactly when the state is neither idle nor initialised,
and `SUCCESS` otherwise. -/
theorem reset_status_and_frame (m : Machine) :
    (ll_scan_reset m).2 = m
      ∧ ((ll_scan_reset m).1 = btle_status_codes_t.BTLE_STATUS_CODE_COMMAND_DISALLOWED
          ↔ (m.m_scanner.state ≠ m_state_t.SCANNER_STATE_IDLE
              ∧ m.m_scanner.state ≠ m_state_t.SCANNER_STATE_INITIALIZED))
      ∧ ((ll_scan_reset m).1 = btle_status_codes_t.BTLE_STATUS_CODE_SUCCESS
          ↔ (m.m_scanner.state = m_state_t.SCANNER_STATE_IDLE
              ∨ m.m_scanner.state = m_state_t.SCANNER_STATE_INITIALIZED)) := by
  unfold ll_scan_reset
  by_cases h : m.m_scanner.state = m_state_t.SCANNER_STATE_IDLE
      ∨ m.m_scanner.state = m_state_t.SCANNER_STATE_INITIALIZED
  · rw [if_pos h]
    refine ⟨rfl, ?_, ?_⟩
    · constructor
      · intro hc
        cases hc
      · rintro ⟨h1, h2⟩
        rcases h with h | h
        · exact absurd h h1
        · exact absurd h h2
    · exact ⟨fun _ => h, fun _ => rfl⟩
  · rw [if_neg h]
    refine ⟨rfl, ?_, ?_⟩
    · exact ⟨fun _ => ⟨fun h1 => h (Or.inl h1), fun h2 => h (Or.inr h2)⟩, fun _ => rfl⟩
    · constructor
      · intro hc
        cases hc
      · intro h1
        exact absurd h1 h

/-! ## Properties of the timer callback -/

/-- Clearing the same bits of a register twice is clearing them once. -/
theorem reg_clear_idem (reg mask : Nat) :
    reg_clear (reg_clear reg mask) mask = reg_clear reg mask := by
  unfold reg_clear
  apply Nat.eq_of_testBit_eq
  intro i
  simp only [Nat.testBit_land, Bool.and_assoc, Bool.and_self]

/-- Bit 4 is clear after `CHENCLR = PPI_CHENCLR_CH4_Msk`. -/
theorem reg_clear_ch4 (reg : Nat) : (reg_clear reg PPI_CHENCLR_CH4_Msk).testBit 4 = false := by
  unfold reg_clear
  rw [Nat.testBit_land]
  have h : (0xFFFFFFFF ^^^ (PPI_CHENCLR_CH4_Msk % 2 ^ 32)).testBit 4 = false := by decide
  rw [h, Bool.and_false]

/-- Bit 17 is clear after `INTENCLR = TIMER_INTENCLR_COMPARE1_Msk`. -/
theorem reg_clear_compare1 (reg : Nat) :
    (reg_clear reg TIMER_INTENCLR_COMPARE1_Msk).testBit 17 = false := by
  unfold reg_clear
  rw [Nat.testBit_land]
  have h : (0xFFFFFFFF ^^^ (TIMER_INTENCLR_COMPARE1_Msk % 2 ^ 32)).testBit 17 = false := by
    decide
  rw [h, Bool.and_false]

/-- The two register writes of the timer callback touch only `CHEN` and
`INTEN`. -/
theorem timer_cb_disable_eq (m : Machine) :
    timer_cb_disable m =
      { m with hw := { m.hw with
          PPI_CHEN := reg_clear m.hw.PPI_CHEN PPI_CHENCLR_CH4_Msk
          TIMER0_INTEN := reg_clear m.hw.TIMER0_INTEN TIMER_INTENCLR_COMPARE1_Msk } } := rfl

/-- The timer callback acts by the state: the two register writes in the three
scanning states, nothing elsewhere. -/
theorem ll_scan_timer_cb_eq (m : Machine) :
    ll_scan_timer_cb m =
      if m.m_scanner.state = m_state_t.SCANNER_STATE_RECEIVE_ADV
          ∨ m.m_scanner.state = m_state_t.SCANNER_STATE_SEND_REQ
          ∨ m.m_scanner.state = m_state_t.SCANNER_STATE_RECEIVE_SCAN_RSP
      then timer_cb_disable m else m := by
  unfold ll_scan_timer_cb
  cases h : m.m_scanner.state <;> simp

/-- The timer callback leaves the globals, the trace and `CRCSTATUS` alone. -/
theorem ll_scan_timer_cb_frame (m : Machine) :
    (ll_scan_timer_cb m).m_scanner = m.m_scanner
      ∧ (ll_scan_timer_cb m).m_rx_buf = m.m_rx_buf
      ∧ (ll_scan_timer_cb m).m_tx_buf = m.m_tx_buf
      ∧ (ll_scan_timer_cb m).hw.trace = m.hw.trace
      ∧ (ll_scan_timer_cb m).hw.RADIO_CRCSTATUS = m.hw.RADIO_CRCSTATUS := by
  rw [ll_scan_timer_cb_eq]
  split
  · exact ⟨rfl, rfl, rfl, rfl, rfl⟩
  · exact ⟨rfl, rfl, rfl, rfl, rfl⟩

/-- The timer callback is idempotent on the whole machine. -/
theorem ll_scan_timer_cb_idem (m : Machine) :
    ll_scan_timer_cb (ll_scan_timer_cb m) = ll_scan_timer_cb m := by
  have hfr := (ll_scan_timer_cb_frame m).1
  rw [ll_scan_timer_cb_eq (ll_scan_timer_cb m), hfr]
  by_cases h : m.m_scanner.state = m_state_t.SCANNER_STATE_RECEIVE_ADV
      ∨ m.m_scanner.state = m_state_t.SCANNER_STATE_SEND_REQ
      ∨ m.m_scanner.state = m_state_t.SCANNER_STATE_RECEIVE_SCAN_RSP
  · rw [if_pos h, ll_scan_timer_cb_eq m, if_pos h]
    simp only [timer_cb_disable_eq, reg_clear_idem]
  · rw [if_neg h]

/-- Outside the scanning states the timer callback does nothing. -/
theorem ll_scan_timer_cb_not_scanning (m : Machine) (h : ¬ m.scanning) :
    ll_scan_timer_cb m = m := by
  rw [ll_scan_timer_cb_eq]
  exact if_neg h

/-- The three states other than the scanning ones. -/
theorem not_scanning_of_idle (m : Machine)
    (h : m.m_scanner.state = m_state_t.SCANNER_STATE_NOT_INITIALIZED
      ∨ m.m_scanner.state = m_state_t.SCANNER_STATE_INITIALIZED
      ∨ m.m_scanner.state = m_state_t.SCANNER_STATE_IDLE) : ¬ m.scanning := by
  intro hs
  rcases h with h | h | h <;> rcases hs with h2 | h2 | h2 <;> rw [h] at h2 <;> cases h2

/-- C9, as the code has it: in each of the six states the timer callback leaves
the state, the parameters and both buffers unchanged, and calling it twice
gives exactly the machine (globals and hardware registers) that calling it once
gives.  In the three scanning states the PPI channel 4 enable bit and the
TIMER0 compare-1 interrupt enable bit are clear afterwards; in the
not-initialised, initialised and idle states the callback writes no register
and returns the machine as it was, so the two bits keep their values. -/
theorem timer_cb_frame_and_idempotent (m : Machine) :
    (ll_scan_timer_cb m).m_scanner.state = m.m_scanner.state
      ∧ (ll_scan_timer_cb m).m_scanner.params = m.m_scanner.params
      ∧ (ll_scan_timer_cb m).m_rx_buf = m.m_rx_buf
      ∧ (ll_scan_timer_cb m).m_tx_buf = m.m_tx_buf
      ∧ ll_scan_timer_cb (ll_scan_timer_cb m) = ll_scan_timer_cb m
      ∧ ((m.m_scanner.state = m_state_t.SCANNER_STATE_RECEIVE_ADV
            ∨ m.m_scanner.state = m_state_t.SCANNER_STATE_SEND_REQ
            ∨ m.m_scanner.state = m_state_t.SCANNER_STATE_RECEIVE_SCAN_RSP) →
          (ll_scan_timer_cb m).hw.PPI_CHEN.testBit 4 = false
          ∧ (ll_scan_timer_cb m).hw.TIMER0_INTEN.testBit 17 = false
          ∧ (ll_scan_timer_cb (ll_scan_timer_cb m)).hw.PPI_CHEN.testBit 4 = false
          ∧ (ll_scan_timer_cb (ll_scan_timer_cb m)).hw.TIMER0_INTEN.testBit 17 = false)
      ∧ ((m.m_scanner.state = m_state_t.SCANNER_STATE_NOT_INITIALIZED
            ∨ m.m_scanner.state = m_state_t.SCANNER_STATE_INITIALIZED
            ∨ m.m_scanner.state = m_state_t.SCANNER_STATE_IDLE) →
          ll_scan_timer_cb m = m
          ∧ ll_scan_timer_cb (ll_scan_timer_cb m) = m
          ∧ (ll_scan_timer_cb m).hw.PPI_CHEN = m.hw.PPI_CHEN
          ∧ (ll_scan_timer_cb m).hw.TIMER0_INTEN = m.hw.TIMER0_INTEN) := by
  obtain ⟨h1, h2, h3, _, _⟩ := ll_scan_timer_cb_frame m
  refine ⟨by rw [h1], by rw [h1], h2, h3, ll_scan_timer_cb_idem m, ?_, ?_⟩
  · intro hscan
    rw [ll_scan_timer_cb_idem, ll_scan_timer_cb_eq, if_pos hscan, timer_cb_disable_eq]
    exact ⟨reg_clear_ch4 _, reg_clear_compare1 _, reg_clear_ch4 _, reg_clear_compare1 _⟩
  · intro hidle
    have hfix := ll_scan_timer_cb_not_scanning m (not_scanning_of_idle m hidle)
    rw [hfix, hfix]
    exact ⟨rfl, rfl, rfl, rfl⟩

/-- Witness of `timer_cb_frame_and_idempotent`: in the send-request state with
channels 0..5 and the compare-1 interrupt enabled, the callback leaves
`CHEN = 0x2F` and `INTEN = 0`; in the idle state it leaves `CHEN = 0x3F`. -/
theorem timer_cb_frame_and_idempotent_witness :
    (ll_scan_timer_cb (sample m_state_t.SCANNER_STATE_SEND_REQ 0 1)).hw.PPI_CHEN.testBit 4
        = false
      ∧ (ll_scan_timer_cb (sample m_state_t.SCANNER_STATE_SEND_REQ 0 1)).hw.PPI_CHEN = 0x2F
      ∧ (ll_scan_timer_cb (sample m_state_t.SCANNER_STATE_SEND_REQ 0 1)).hw.TIMER0_INTEN = 0
      ∧ (ll_scan_timer_cb (sample m_state_t.SCANNER_STATE_IDLE 0 1)).hw.PPI_CHEN = 0x3F :=
  ⟨((timer_cb_frame_and_idempotent (sample m_state_t.SCANNER_STATE_SEND_REQ 0 1)).2.2.2.2.2.1
      (Or.inr (Or.inl rfl))).1, by decide, by decide,
   ((timer_cb_frame_and_idempotent (sample m_state_t.SCANNER_STATE_IDLE 0 1)).2.2.2.2.2.2
      (Or.inr (Or.inr rfl))).2.2.1⟩

/-- C9 fails as stated: outside the scanning states the timer callback
disables nothing.  On an idle machine with PPI channel 4 and the compare-1
interrupt enabled, both are still enabled after one call and after two.  The
same happens in a state reached from reset: after a scan request has been
armed and `ll_scan_init` called again, the state is initialised, both bits are
set, and the timer callback leaves them set. -/
theorem timer_cb_outside_scanning_disables_nothing :
    (sample m_state_t.SCANNER_STATE_IDLE 0 1).m_scanner.state = m_state_t.SCANNER_STATE_IDLE
      ∧ (ll_scan_timer_cb (sample m_state_t.SCANNER_STATE_IDLE 0 1)).hw.PPI_CHEN.testBit 4 = true
      ∧ (ll_scan_timer_cb (sample m_state_t.SCANNER_STATE_IDLE 0 1)).hw.TIMER0_INTEN.testBit 17
          = true
      ∧ (ll_scan_timer_cb (ll_scan_timer_cb
          (sample m_state_t.SCANNER_STATE_IDLE 0 1))).hw.PPI_CHEN.testBit 4 = true
      ∧ (ll_scan_timer_cb (ll_scan_timer_cb
          (sample m_state_t.SCANNER_STATE_IDLE 0 1))).hw.TIMER0_INTEN.testBit 17 = true
      ∧ run_to_second_init.m_scanner.state = m_state_t.SCANNER_STATE_INITIALIZED
      ∧ (ll_scan_timer_cb run_to_second_init).hw.PPI_CHEN = 0x37
      ∧ (ll_scan_timer_cb run_to_second_init).hw.PPI_CHEN.testBit 4 = true
      ∧ (ll_scan_timer_cb run_to_second_init).hw.TIMER0_INTEN.testBit 17 = true := by
  refine ⟨rfl, ?_, ?_, ?_, ?_, rfl, rfl, ?_, ?_⟩ <;> decide

/-! ## Initialisation -/

/-- C10, as the code has it: `ll_scan_init` called in a scanning state returns
`SUCCESS` and enters the initialised state; the parameters, both buffers and
the hardware are unchanged. -/
theorem init_while_scanning_succeeds (m : Machine)
    (hscan : m.m_scanner.state = m_state_t.SCANNER_STATE_RECEIVE_ADV
      ∨ m.m_scanner.state = m_state_t.SCANNER_STATE_SEND_REQ
      ∨ m.m_scanner.state = m_state_t.SCANNER_STATE_RECEIVE_SCAN_RSP) :
    (ll_scan_init m).1 = btle_status_codes_t.BTLE_STATUS_CODE_SUCCESS
      ∧ (ll_scan_init m).2.m_scanner.state = m_state_t.SCANNER_STATE_INITIALIZED
      ∧ (ll_scan_init m).2.m_scanner.params = m.m_scanner.params
      ∧ (ll_scan_init m).2.m_rx_buf = m.m_rx_buf
      ∧ (ll_scan_init m).2.m_tx_buf = m.m_tx_buf
      ∧ (ll_scan_init m).2.hw = m.hw := by
  rw [ll_scan_init_eq]
  exact ⟨rfl, rfl, rfl, rfl, rfl, rfl⟩

/-- Witness of `init_while_scanning_succeeds` in the scan-response-receive
state. -/
theorem init_while_scanning_succeeds_witness :
    (ll_scan_init (sample m_state_t.SCANNER_STATE_RECEIVE_SCAN_RSP 0 1)).1
        = btle_status_codes_t.BTLE_STATUS_CODE_SUCCESS
      ∧ (ll_scan_init (sample m_state_t.SCANNER_STATE_RECEIVE_SCAN_RSP 0 1)).2.m_scanner.state
        = m_state_t.SCANNER_STATE_INITIALIZED :=
  have h := init_while_scanning_succeeds (sample m_state_t.SCANNER_STATE_RECEIVE_SCAN_RSP 0 1)
    (Or.inr (Or.inr rfl))
  ⟨h.1, h.2.1⟩

/-- C10 fails as stated: called in the advertisement-receive state,
`ll_scan_init` returns `SUCCESS` and moves the state to initialised. -/
theorem init_while_scanning_not_rejected :
    (sample m_state_t.SCANNER_STATE_RECEIVE_ADV 0x40 1).m_scanner.state
        = m_state_t.SCANNER_STATE_RECEIVE_ADV
      ∧ (ll_scan_init (sample m_state_t.SCANNER_STATE_RECEIVE_ADV 0x40 1)).1
        = btle_status_codes_t.BTLE_STATUS_CODE_SUCCESS
      ∧ (ll_scan_init (sample m_state_t.SCANNER_STATE_RECEIVE_ADV 0x40 1)).2.m_scanner.state
        = m_state_t.SCANNER_STATE_INITIALIZED :=
  ⟨rfl, rfl, rfl⟩


/-! ## Start and stop -/

/-- The globals after `ll_scan_start`: only the state changes. -/
theorem ll_scan_start_globals (m : Machine) :
    (ll_scan_start m).1 = btle_status_codes_t.BTLE_STATUS_CODE_SUCCESS
      ∧ (ll_scan_start m).2.m_scanner.state = m_state_t.SCANNER_STATE_RECEIVE_ADV
      ∧ (ll_scan_start m).2.m_scanner.params = m.m_scanner.params
      ∧ (ll_scan_start m).2.m_rx_buf = m.m_rx_buf
      ∧ (ll_scan_start m).2.m_tx_buf = m.m_tx_buf := by
  simp [ll_scan_start, m_state_receive_adv_entry, Machine.call, Machine.store, Machine.chenset,
    Machine.setState]

/-- The configuration stores and driver calls of `ll_scan_start`, in program
order. -/
theorem ll_scan_start_trace (m : Machine) :
    (ll_scan_start m).2.hw.trace = m.hw.trace ++
      [ HwCall.PPI_CH_EEP 5 Endpoint.RADIO_EVENTS_END,
        HwCall.PPI_CH_TEP 5 (Endpoint.TIMER0_TASKS_CAPTURE 1),
        HwCall.GPIOTE_CONFIG_task_toggle 0 0 OutInit.Low,
        HwCall.PPI_CH_EEP 0 Endpoint.RADIO_EVENTS_END,
        HwCall.PPI_CH_TEP 0 (Endpoint.GPIOTE_TASKS_OUT 0),
        HwCall.GPIOTE_CONFIG_task_toggle 1 1 OutInit.High,
        HwCall.PPI_CH_EEP 1 Endpoint.RADIO_EVENTS_READY,
        HwCall.PPI_CH_TEP 1 (Endpoint.GPIOTE_TASKS_OUT 1),
        HwCall.GPIOTE_CONFIG_task_toggle 2 2 OutInit.Low,
        HwCall.PPI_CH_EEP 2 (Endpoint.TIMER0_EVENTS_COMPARE 1),
        HwCall.PPI_CH_TEP 2 (Endpoint.GPIOTE_TASKS_OUT 2),
        HwCall.NVIC_EnableIRQ_TIMER0,
        HwCall.radio_init 39,
        HwCall.radio_receive_prepare_and_start Buffer.m_rx_buf true ] := by
  simp [ll_scan_start, m_state_receive_adv_entry, Machine.call, Machine.store, Machine.chenset,
    Machine.setState, DBG_RADIO_END, DBG_RADIO_READY, DBG_RADIO_TIMER]

/-- C12: in the idle state `ll_scan_start` returns `SUCCESS`, enters the
advertisement-receive state, and after its configuration stores calls
`radio_init(39)` and then `radio_receive_prepare_and_start(m_rx_buf, true)`;
the parameters and both buffers are unchanged. -/
theorem start_from_idle (m : Machine)
    (hst : m.m_scanner.state = m_state_t.SCANNER_STATE_IDLE) :
    (ll_scan_start m).1 = btle_status_codes_t.BTLE_STATUS_CODE_SUCCESS
      ∧ (ll_scan_start m).2.m_scanner.state = m_state_t.SCANNER_STATE_RECEIVE_ADV
      ∧ (ll_scan_start m).2.hw.trace = m.hw.trace ++
          [ HwCall.PPI_CH_EEP 5 Endpoint.RADIO_EVENTS_END,
            HwCall.PPI_CH_TEP 5 (Endpoint.TIMER0_TASKS_CAPTURE 1),
            HwCall.GPIOTE_CONFIG_task_toggle 0 0 OutInit.Low,
            HwCall.PPI_CH_EEP 0 Endpoint.RADIO_EVENTS_END,
            HwCall.PPI_CH_TEP 0 (Endpoint.GPIOTE_TASKS_OUT 0),
            HwCall.GPIOTE_CONFIG_task_toggle 1 1 OutInit.High,
            HwCall.PPI_CH_EEP 1 Endpoint.RADIO_EVENTS_READY,
            HwCall.PPI_CH_TEP 1 (Endpoint.GPIOTE_TASKS_OUT 1),
            HwCall.GPIOTE_CONFIG_task_toggle 2 2 OutInit.Low,
            HwCall.PPI_CH_EEP 2 (Endpoint.TIMER0_EVENTS_COMPARE 1),
            HwCall.PPI_CH_TEP 2 (Endpoint.GPIOTE_TASKS_OUT 2),
            HwCall.NVIC_EnableIRQ_TIMER0,
            HwCall.radio_init 39,
            HwCall.radio_receive_prepare_and_start Buffer.m_rx_buf true ]
      ∧ (ll_scan_start m).2.hw.trace.getLast?
          = some (HwCall.radio_receive_prepare_and_start Buffer.m_rx_buf true)
      ∧ (ll_scan_start m).2.m_scanner.params = m.m_scanner.params
      ∧ (ll_scan_start m).2.m_tx_buf = m.m_tx_buf
      ∧ (ll_scan_start m).2.m_rx_buf = m.m_rx_buf := by
  obtain ⟨h1, h2, h3, h4, h5⟩ := ll_scan_start_globals m
  have ht := ll_scan_start_trace m
  refine ⟨h1, h2, ht, ?_, h3, h5, h4⟩
  rw [ht]
  simp

/-- Witness of `start_from_idle` on a sample idle machine with an empty
trace. -/
theorem start_from_idle_witness :
    (ll_scan_start (sample m_state_t.SCANNER_STATE_IDLE 0 0)).1
        = btle_status_codes_t.BTLE_STATUS_CODE_SUCCESS
      ∧ (ll_scan_start (sample m_state_t.SCANNER_STATE_IDLE 0 0)).2.m_scanner.state
        = m_state_t.SCANNER_STATE_RECEIVE_ADV
      ∧ (ll_scan_start (sample m_state_t.SCANNER_STATE_IDLE 0 0)).2.hw.trace.getLast?
        = some (HwCall.radio_receive_prepare_and_start Buffer.m_rx_buf true) :=
  have h := start_from_idle (sample m_state_t.SCANNER_STATE_IDLE 0 0) rfl
  ⟨h.1, h.2.1, h.2.2.2.1⟩

/-- C13, as the code has it: `ll_scan_start` has no state check; called in the
not-initialised state it returns `SUCCESS`, enters the advertisement-receive
state and starts a receive into `m_rx_buf` on channel 39, as it does from the
idle state. -/
theorem start_from_not_initialized_accepted (m : Machine)
    (hst : m.m_scanner.state = m_state_t.SCANNER_STATE_NOT_INITIALIZED) :
    (ll_scan_start m).1 = btle_status_codes_t.BTLE_STATUS_CODE_SUCCESS
      ∧ (ll_scan_start m).2.m_scanner.state = m_state_t.SCANNER_STATE_RECEIVE_ADV
      ∧ HwCall.radio_init 39 ∈ (ll_scan_start m).2.hw.trace
      ∧ (ll_scan_start m).2.hw.trace.getLast?
          = some (HwCall.radio_receive_prepare_and_start Buffer.m_rx_buf true)
      ∧ (ll_scan_start m).2
          = (ll_scan_start (m.setState m_state_t.SCANNER_STATE_IDLE)).2 := by
  obtain ⟨h1, h2, _, _, _⟩ := ll_scan_start_globals m
  have ht := ll_scan_start_trace m
  refine ⟨h1, h2, ?_, ?_, ?_⟩
  · rw [ht]
    simp
  · rw [ht]
    simp
  · simp [ll_scan_start, m_state_receive_adv_entry, Machine.call, Machine.store, Machine.chenset,
      Machine.setState]

/-- Witness of `start_from_not_initialized_accepted` on the start-up
machine. -/
theorem start_from_not_initialized_accepted_witness :
    (ll_scan_start (Machine.initial hw_reset)).1
        = btle_status_codes_t.BTLE_STATUS_CODE_SUCCESS
      ∧ (ll_scan_start (Machine.initial hw_reset)).2.m_scanner.state
        = m_state_t.SCANNER_STATE_RECEIVE_ADV :=
  have h := start_from_not_initialized_accepted
    (Machine.initial hw_reset) rfl
  ⟨h.1, h.2.1⟩

/-- C13 fails as stated: on a not-initialised sample machine `ll_scan_start`
returns `SUCCESS`, the state becomes advertisement-receive and the last driver
call is the start of a receive into `m_rx_buf`. -/
theorem start_not_initialized_silently_accepted :
    (sample m_state_t.SCANNER_STATE_NOT_INITIALIZED 0 0).m_scanner.state
        = m_state_t.SCANNER_STATE_NOT_INITIALIZED
      ∧ (ll_scan_start (sample m_state_t.SCANNER_STATE_NOT_INITIALIZED 0 0)).1
        = btle_status_codes_t.BTLE_STATUS_CODE_SUCCESS
      ∧ (ll_scan_start (sample m_state_t.SCANNER_STATE_NOT_INITIALIZED 0 0)).2.m_scanner.state
        = m_state_t.SCANNER_STATE_RECEIVE_ADV
      ∧ (ll_scan_start (sample m_state_t.SCANNER_STATE_NOT_INITIALIZED 0 0)).2.hw.trace.getLast?
        = some (HwCall.radio_receive_prepare_and_start Buffer.m_rx_buf true) := by
  obtain ⟨h1, h2, _, _, _⟩ :=
    ll_scan_start_globals (sample m_state_t.SCANNER_STATE_NOT_INITIALIZED 0 0)
  refine ⟨rfl, h1, h2, ?_⟩
  rw [ll_scan_start_trace]
  simp

/-- C14: in every state `ll_scan_stop` returns `SUCCESS` and leaves the whole
machine as it was: state, parameters, both buffers, registers and trace; so a
machine in a scanning state is in the same scanning state afterwards. -/
theorem stop_is_noop (m : Machine) :
    (ll_scan_stop m).1 = btle_status_codes_t.BTLE_STATUS_CODE_SUCCESS
      ∧ (ll_scan_stop m).2 = m
      ∧ (ll_scan_stop m).2.m_scanner.state = m.m_scanner.state
      ∧ (ll_scan_stop m).2.m_scanner.params = m.m_scanner.params
      ∧ (ll_scan_stop m).2.m_rx_buf = m.m_rx_buf
      ∧ (ll_scan_stop m).2.m_tx_buf = m.m_tx_buf
      ∧ (ll_scan_stop m).2.hw = m.hw
      ∧ (m.scanning ↔ (ll_scan_stop m).2.scanning) :=
  ⟨rfl, rfl, rfl, rfl, rfl, rfl, rfl, Iff.rfl⟩

/-! ## Frame lemmas for single events and runs -/

/-- Bytes below the destination offset are not touched by the copy. -/
theorem memcpy_getElem?_below (dst : List Nat) (d : Nat) (src : List Nat) (s n j : Nat)
    (hj : j < d) : (memcpy dst d src s n)[j]? = dst[j]? := by
  induction n generalizing dst d s with
  | zero => rfl
  | succ n ih =>
    rw [memcpy, ih _ _ _ (by omega), List.getElem?_set]
    have hne : ¬ d = j := by omega
    rw [if_neg hne]

/-- The copy keeps the part of the destination before the offset. -/
theorem memcpy_take (dst : List Nat) (d : Nat) (src : List Nat) (s n : Nat) :
    (memcpy dst d src s n).take d = dst.take d := by
  apply List.ext_getElem?
  intro j
  by_cases hj : j < d
  · rw [List.getElem?_take_of_lt hj, List.getElem?_take_of_lt hj, memcpy_getElem?_below _ _ _ _ _ _ hj]
  · rw [List.getElem?_eq_none (by simp; omega), List.getElem?_eq_none (by simp; omega)]

/-- The radio callback either leaves `m_tx_buf` alone or copies six bytes to
its offset 9. -/
theorem radio_cb_tx_buf (crc_valid : Bool) (m : Machine) :
    (ll_scan_radio_cb crc_valid m).m_tx_buf = m.m_tx_buf
      ∨ (ll_scan_radio_cb crc_valid m).m_tx_buf = memcpy m.m_tx_buf 9 m.m_rx_buf 3 6 := by
  unfold ll_scan_radio_cb
  split
  · split
    · exact Or.inl rfl
    · dsimp only
      split
      · exact Or.inr rfl
      · split <;> exact Or.inl rfl
  · exact Or.inl rfl
  · exact Or.inl rfl
  · exact Or.inl rfl

/-- The radio callback never writes the parameters. -/
theorem radio_cb_params (crc_valid : Bool) (m : Machine) :
    (ll_scan_radio_cb crc_valid m).m_scanner.params = m.m_scanner.params := by
  unfold ll_scan_radio_cb
  split
  · split
    · rfl
    · dsimp only
      split
      · rfl
      · split <;> rfl
  · rfl
  · rfl
  · rfl

/-- The radio callback maps scanning states to scanning states. -/
theorem radio_cb_scanning (crc_valid : Bool) (m : Machine) (h : m.scanning) :
    (ll_scan_radio_cb crc_valid m).scanning := by
  unfold Machine.scanning at h ⊢
  rcases h with h | h | h
  · by_cases hcrc : m.hw.RADIO_CRCSTATUS = 0
    · rw [radio_cb_crc_zero crc_valid m h hcrc]
      exact Or.inl h
    · by_cases hty : m.m_rx_buf.getD 0 0 &&& 0x0F = 0x00 ∨ m.m_rx_buf.getD 0 0 &&& 0x0F = 0x06
      · rw [radio_cb_solicit crc_valid m h hcrc hty]
        exact Or.inr (Or.inl rfl)
      · rw [radio_cb_other crc_valid m h hcrc (fun h0 => hty (Or.inl h0))
          (fun h6 => hty (Or.inr h6))]
        exact Or.inl h
  · rw [radio_cb_send_req crc_valid m h]
    exact Or.inr (Or.inr rfl)
  · rw [radio_cb_receive_scan_rsp crc_valid m h]
    exact Or.inl rfl

/-- Outside the scanning states the radio callback does nothing. -/
theorem radio_cb_not_scanning (crc_valid : Bool) (m : Machine) (h : ¬ m.scanning) :
    ll_scan_radio_cb crc_valid m = m := by
  unfold Machine.scanning at h
  unfold ll_scan_radio_cb
  split
  · rename_i hs
    exact absurd (Or.inl hs) h
  · rename_i hs
    exact absurd (Or.inr (Or.inl hs)) h
  · rename_i hs
    exact absurd (Or.inr (Or.inr hs)) h
  · rfl

/-- Function `ll_scan_prepare` never touches the buffers or the hardware. -/
theorem ll_scan_prepare_frame (a b c : Nat) (m : Machine) :
    (ll_scan_prepare a b c m).2.m_tx_buf = m.m_tx_buf
      ∧ (ll_scan_prepare a b c m).2.m_rx_buf = m.m_rx_buf
      ∧ (ll_scan_prepare a b c m).2.hw = m.hw := by
  by_cases hi : m.m_scanner.state = m_state_t.SCANNER_STATE_INITIALIZED
  · rw [ll_scan_prepare_initialized a b c m hi]
    exact ⟨rfl, rfl, rfl⟩
  · by_cases hd : m.m_scanner.state = m_state_t.SCANNER_STATE_IDLE
    · rw [ll_scan_prepare_idle a b c m hd]
      exact ⟨rfl, rfl, rfl⟩
    · have : ll_scan_prepare a b c m
          = (btle_status_codes_t.BTLE_STATUS_CODE_COMMAND_DISALLOWED, m) := by
        unfold ll_scan_prepare
        rw [if_pos ⟨hi, hd⟩]
      rw [this]
      exact ⟨rfl, rfl, rfl⟩

/-- Function `ll_scan_prepare` changes the parameters in the idle state only. -/
theorem ll_scan_prepare_params (a b c : Nat) (m : Machine)
    (hd : m.m_scanner.state ≠ m_state_t.SCANNER_STATE_IDLE) :
    (ll_scan_prepare a b c m).2.m_scanner.params = m.m_scanner.params := by
  by_cases hi : m.m_scanner.state = m_state_t.SCANNER_STATE_INITIALIZED
  · rw [ll_scan_prepare_initialized a b c m hi]
    rfl
  · have : ll_scan_prepare a b c m
        = (btle_status_codes_t.BTLE_STATUS_CODE_COMMAND_DISALLOWED, m) := by
      unfold ll_scan_prepare
      rw [if_pos ⟨hi, hd⟩]
    rw [this]

/-- Every event either leaves `m_tx_buf` alone or copies six bytes to its
offset 9. -/
theorem step_tx_buf (op : Op) (m : Machine) :
    (step op m).m_tx_buf = m.m_tx_buf
      ∨ (step op m).m_tx_buf = memcpy m.m_tx_buf 9 m.m_rx_buf 3 6 := by
  cases op with
  | init => left; show (ll_scan_init m).2.m_tx_buf = _; rw [ll_scan_init_eq]; rfl
  | reset => left; show (ll_scan_reset m).2.m_tx_buf = _; unfold ll_scan_reset; split <;> rfl
  | prepare a b c => exact Or.inl (ll_scan_prepare_frame a b c m).1
  | start => exact Or.inl (ll_scan_start_globals m).2.2.2.2
  | stop => exact Or.inl rfl
  | radio_cb cv => exact radio_cb_tx_buf cv m
  | timer_cb => exact Or.inl (ll_scan_timer_cb_frame m).2.2.1
  | receive rx crcstatus => exact Or.inl rfl

/-- A property kept by every event of a class is kept by every run of events
of that class. -/
theorem run_induction (P : Machine → Prop) (Q : Op → Prop)
    (hstep : ∀ op m, Q op → P m → P (step op m)) (ops : List Op) (m : Machine)
    (hops : ∀ op ∈ ops, Q op) (hm : P m) : P (run ops m) := by
  induction ops generalizing m with
  | nil => exact hm
  | cons op ops ih =>
    show P (run ops (step op m))
    exact ih (step op m) (fun o ho => hops o (List.mem_cons_of_mem _ ho))
      (hstep op m (hops op (List.mem_cons_self _ _)) hm)

/-- The receive step of the radio leaves the state of the scanner alone. -/
theorem receive_state (m : Machine) (rx : List Nat) (crcstatus : Nat) :
    (m.receive rx crcstatus).m_scanner.state = m.m_scanner.state := rfl

/-- Scanning states are kept by every event other than `ll_scan_init` and
`ll_scan_start`. -/
theorem step_scanning (op : Op) (m : Machine) (hop : op.notInitOrStart) (h : m.scanning) :
    (step op m).scanning := by
  cases op with
  | init => exact absurd rfl hop.1
  | start => exact absurd rfl hop.2
  | reset =>
    show (ll_scan_reset m).2.scanning
    unfold ll_scan_reset
    split <;> exact h
  | prepare a b c =>
    show (ll_scan_prepare a b c m).2.scanning
    have hi : m.m_scanner.state ≠ m_state_t.SCANNER_STATE_INITIALIZED := by
      intro hc
      rcases h with h | h | h <;> rw [hc] at h <;> cases h
    have hd : m.m_scanner.state ≠ m_state_t.SCANNER_STATE_IDLE := by
      intro hc
      rcases h with h | h | h <;> rw [hc] at h <;> cases h
    unfold ll_scan_prepare
    rw [if_pos ⟨hi, hd⟩]
    exact h
  | stop => exact h
  | radio_cb cv => exact radio_cb_scanning cv m h
  | timer_cb =>
    show (ll_scan_timer_cb m).scanning
    unfold Machine.scanning
    rw [(ll_scan_timer_cb_frame m).1]
    exact h
  | receive rx crcstatus => exact h

/-- In a scanning state `ll_scan_prepare` and `ll_scan_reset` are refused. -/
theorem scanning_commands_disallowed (m : Machine) (h : m.scanning) (a b c : Nat) :
    (ll_scan_prepare a b c m).1 = btle_status_codes_t.BTLE_STATUS_CODE_COMMAND_DISALLOWED
      ∧ (ll_scan_reset m).1 = btle_status_codes_t.BTLE_STATUS_CODE_COMMAND_DISALLOWED := by
  have hi : m.m_scanner.state ≠ m_state_t.SCANNER_STATE_INITIALIZED := by
    intro hc
    rcases h with h | h | h <;> rw [hc] at h <;> cases h
  have hd : m.m_scanner.state ≠ m_state_t.SCANNER_STATE_IDLE := by
    intro hc
    rcases h with h | h | h <;> rw [hc] at h <;> cases h
  constructor
  · unfold ll_scan_prepare
    rw [if_pos ⟨hi, hd⟩]
  · unfold ll_scan_reset
    rw [if_neg (by rintro (h1 | h1); exact hd h1; exact hi h1)]

/-- The radio callback commutes with setting the parameters. -/
theorem radio_cb_setParams (cv : Bool) (m : Machine) (p : scanner_params_t) :
    ll_scan_radio_cb cv (m.setParams p) = (ll_scan_radio_cb cv m).setParams p := by
  by_cases hs : m.scanning
  · rcases hs with h | h | h
    · by_cases hcrc : m.hw.RADIO_CRCSTATUS = 0
      · rw [radio_cb_crc_zero cv m h hcrc, radio_cb_crc_zero cv (m.setParams p) h hcrc]
        rfl
      · by_cases hty : m.m_rx_buf.getD 0 0 &&& 0x0F = 0x00
            ∨ m.m_rx_buf.getD 0 0 &&& 0x0F = 0x06
        · rw [radio_cb_solicit cv m h hcrc hty, radio_cb_solicit cv (m.setParams p) h hcrc hty]
          rfl
        · have h0 : m.m_rx_buf.getD 0 0 &&& 0x0F ≠ 0x00 := fun e => hty (Or.inl e)
          have h6 : m.m_rx_buf.getD 0 0 &&& 0x0F ≠ 0x06 := fun e => hty (Or.inr e)
          rw [radio_cb_other cv m h hcrc h0 h6, radio_cb_other cv (m.setParams p) h hcrc h0 h6]
          rfl
    · rw [radio_cb_send_req cv m h, radio_cb_send_req cv (m.setParams p) h]
      rfl
    · rw [radio_cb_receive_scan_rsp cv m h, radio_cb_receive_scan_rsp cv (m.setParams p) h]
      rfl
  · rw [radio_cb_not_scanning cv m hs, radio_cb_not_scanning cv (m.setParams p) hs]

/-! ## Invariants and relational properties -/

/-- C15: after any finite sequence of interface calls and radio receptions
from the start-up machine, with any arguments, any received bytes and any
hardware registers, `m_tx_buf` still has 15 bytes and its first nine are
0xC3, 0x0C, 0x00 and six times 0xDE; only bytes 9..14 can differ from the
initialiser. -/
theorem tx_buf_header_invariant (hw : Hw) (ops : List Op) :
    (run ops (Machine.initial hw)).m_tx_buf.length = 15
      ∧ (run ops (Machine.initial hw)).m_tx_buf.take 9
          = [0xC3, 0x0C, 0x00, 0xDE, 0xDE, 0xDE, 0xDE, 0xDE, 0xDE] := by
  apply run_induction
    (fun m => m.m_tx_buf.length = 15
      ∧ m.m_tx_buf.take 9 = [0xC3, 0x0C, 0x00, 0xDE, 0xDE, 0xDE, 0xDE, 0xDE, 0xDE])
    (fun _ => True)
  · intro op m _ hm
    rcases step_tx_buf op m with h | h
    · rw [h]
      exact hm
    · rw [h, memcpy_length, memcpy_take]
      exact hm
  · intro _ _
    trivial
  · exact ⟨rfl, rfl⟩

/-- C16: in the three scanning states no event changes the stored parameters,
whatever its arguments; and in any state, an event that changes them is
`ll_scan_prepare` called in the idle state. -/
theorem params_change_only_by_prepare_in_idle (op : Op) (m : Machine) :
    (m.scanning → (step op m).m_scanner.params = m.m_scanner.params)
      ∧ ((step op m).m_scanner.params ≠ m.m_scanner.params →
          m.m_scanner.state = m_state_t.SCANNER_STATE_IDLE
            ∧ ∃ a b c, op = Op.prepare a b c) := by
  have key : (step op m).m_scanner.params = m.m_scanner.params
      ∨ (m.m_scanner.state = m_state_t.SCANNER_STATE_IDLE ∧ ∃ a b c, op = Op.prepare a b c) := by
    cases op with
    | init => left; show (ll_scan_init m).2.m_scanner.params = _; rw [ll_scan_init_eq]; rfl
    | reset =>
      left
      show (ll_scan_reset m).2.m_scanner.params = _
      unfold ll_scan_reset
      split <;> rfl
    | prepare a b c =>
      by_cases hd : m.m_scanner.state = m_state_t.SCANNER_STATE_IDLE
      · exact Or.inr ⟨hd, a, b, c, rfl⟩
      · exact Or.inl (ll_scan_prepare_params a b c m hd)
    | start => exact Or.inl (ll_scan_start_globals m).2.2.1
    | stop => exact Or.inl rfl
    | radio_cb cv => exact Or.inl (radio_cb_params cv m)
    | timer_cb =>
      left
      show (ll_scan_timer_cb m).m_scanner.params = _
      rw [(ll_scan_timer_cb_frame m).1]
    | receive rx crcstatus => exact Or.inl rfl
  constructor
  · intro hs
    rcases key with h | ⟨hidle, _⟩
    · exact h
    · rcases hs with h | h | h <;> rw [hidle] at h <;> cases h
  · intro hne
    rcases key with h | h
    · exact absurd h hne
    · exact h

/-- Witness of `params_change_only_by_prepare_in_idle`: `ll_scan_prepare 7 8 9`
leaves the parameters `(1, 2, 3)` of a machine in the send-request state, and
changes those of an idle machine. -/
theorem params_change_only_by_prepare_in_idle_witness :
    (step (Op.prepare 7 8 9) (sample m_state_t.SCANNER_STATE_SEND_REQ 0 1)).m_scanner.params
        = { scan_type := 1, own_address_type := 2, scanning_filter_policy := 3 }
      ∧ (sample m_state_t.SCANNER_STATE_IDLE 0 1).m_scanner.state
        = m_state_t.SCANNER_STATE_IDLE :=
  ⟨(params_change_only_by_prepare_in_idle (Op.prepare 7 8 9)
      (sample m_state_t.SCANNER_STATE_SEND_REQ 0 1)).1 (Or.inr (Or.inl rfl)),
   ((params_change_only_by_prepare_in_idle (Op.prepare 7 8 9)
      (sample m_state_t.SCANNER_STATE_IDLE 0 1)).2 (by decide)).1⟩

/-- C17: from one machine in the advertisement-receive state and with one
`CRCSTATUS`, two received buffers that agree on `byte 0 & 0x0F` lead the radio
callback to the same state and the same driver calls, whatever the high nibble
of byte 0 and the other bytes are. -/
theorem radio_cb_classifies_by_low_nibble (cv : Bool) (m : Machine) (rx1 rx2 : List Nat)
    (crcstatus : Nat)
    (hst : m.m_scanner.state = m_state_t.SCANNER_STATE_RECEIVE_ADV)
    (hnib : rx1.getD 0 0 &&& 0x0F = rx2.getD 0 0 &&& 0x0F) :
    (ll_scan_radio_cb cv (m.receive rx1 crcstatus)).m_scanner.state
        = (ll_scan_radio_cb cv (m.receive rx2 crcstatus)).m_scanner.state
      ∧ (ll_scan_radio_cb cv (m.receive rx1 crcstatus)).hw.trace
        = (ll_scan_radio_cb cv (m.receive rx2 crcstatus)).hw.trace
      ∧ ((ll_scan_radio_cb cv (m.receive rx1 crcstatus)).hw.trace
            = m.hw.trace ++ [HwCall.radio_transmit_prepare Buffer.m_tx_buf]
          ∨ (ll_scan_radio_cb cv (m.receive rx1 crcstatus)).hw.trace
            = m.hw.trace ++ [HwCall.radio_transmit_abort]) := by
  have hs1 : (m.receive rx1 crcstatus).m_scanner.state
      = m_state_t.SCANNER_STATE_RECEIVE_ADV := hst
  have hs2 : (m.receive rx2 crcstatus).m_scanner.state
      = m_state_t.SCANNER_STATE_RECEIVE_ADV := hst
  by_cases hcrc : crcstatus = 0
  · rw [radio_cb_crc_zero cv _ hs1 hcrc, radio_cb_crc_zero cv _ hs2 hcrc]
    exact ⟨rfl, rfl, Or.inr rfl⟩
  · by_cases hty : rx1.getD 0 0 &&& 0x0F = 0x00 ∨ rx1.getD 0 0 &&& 0x0F = 0x06
    · have hty2 : rx2.getD 0 0 &&& 0x0F = 0x00 ∨ rx2.getD 0 0 &&& 0x0F = 0x06 := by
        rw [← hnib]
        exact hty
      rw [radio_cb_solicit cv _ hs1 hcrc hty, radio_cb_solicit cv _ hs2 hcrc hty2]
      exact ⟨rfl, rfl, Or.inl rfl⟩
    · have h0 : rx1.getD 0 0 &&& 0x0F ≠ 0x00 := fun e => hty (Or.inl e)
      have h6 : rx1.getD 0 0 &&& 0x0F ≠ 0x06 := fun e => hty (Or.inr e)
      rw [radio_cb_other cv _ hs1 hcrc h0 h6,
        radio_cb_other cv _ hs2 hcrc (hnib ▸ h0) (hnib ▸ h6)]
      exact ⟨rfl, rfl, Or.inr rfl⟩

/-- Witness of `radio_cb_classifies_by_low_nibble`: the headers 0x46 and 0xF6
with different payloads both lead to the send-request state. -/
theorem radio_cb_classifies_by_low_nibble_witness :
    (ll_scan_radio_cb true ((sample m_state_t.SCANNER_STATE_RECEIVE_ADV 0 1).receive
        [0x46, 1, 2, 3] 1)).m_scanner.state
      = (ll_scan_radio_cb true ((sample m_state_t.SCANNER_STATE_RECEIVE_ADV 0 1).receive
        [0xF6, 9, 9, 9, 9, 9, 9, 9, 9, 9] 1)).m_scanner.state :=
  (radio_cb_classifies_by_low_nibble true (sample m_state_t.SCANNER_STATE_RECEIVE_ADV 0 1)
    [0x46, 1, 2, 3] [0xF6, 9, 9, 9, 9, 9, 9, 9, 9, 9] 1 rfl (by decide)).1

/-- C19: the radio callback does not read the stored parameters: run on a
machine whose parameters are replaced by any `p`, it gives the machine it gives
otherwise, with the parameters replaced by `p` (same state, same `m_tx_buf`,
same driver calls); so for any `scan_type`, a packet with `CRCSTATUS ≠ 0` and
low nibble 0x00 in the advertisement-receive state still prepares the transmit
and enters the send-request state. -/
theorem radio_cb_independent_of_params (cv : Bool) (m : Machine) (p : scanner_params_t) :
    ll_scan_radio_cb cv (m.setParams p) = (ll_scan_radio_cb cv m).setParams p
      ∧ (ll_scan_radio_cb cv (m.setParams p)).m_scanner.state
          = (ll_scan_radio_cb cv m).m_scanner.state
      ∧ (ll_scan_radio_cb cv (m.setParams p)).m_tx_buf = (ll_scan_radio_cb cv m).m_tx_buf
      ∧ (ll_scan_radio_cb cv (m.setParams p)).hw.trace = (ll_scan_radio_cb cv m).hw.trace
      ∧ (m.m_scanner.state = m_state_t.SCANNER_STATE_RECEIVE_ADV →
          m.hw.RADIO_CRCSTATUS ≠ 0 →
          m.m_rx_buf.getD 0 0 &&& 0x0F = 0x00 →
          (ll_scan_radio_cb cv (m.setParams p)).m_scanner.state
              = m_state_t.SCANNER_STATE_SEND_REQ
            ∧ (ll_scan_radio_cb cv (m.setParams p)).hw.trace
              = m.hw.trace ++ [HwCall.radio_transmit_prepare Buffer.m_tx_buf]) := by
  have h := radio_cb_setParams cv m p
  refine ⟨h, by rw [h]; rfl, by rw [h]; rfl, by rw [h]; rfl, ?_⟩
  intro hst hcrc hty
  rw [h, radio_cb_solicit cv m hst hcrc (Or.inl hty)]
  exact ⟨rfl, rfl⟩

/-- Witness of `radio_cb_independent_of_params`: with `scan_type = 0` stored, an
`ADV_IND` header 0x40 with `CRCSTATUS = 1` leads to the send-request state. -/
theorem radio_cb_independent_of_params_witness :
    (ll_scan_radio_cb true ((sample m_state_t.SCANNER_STATE_RECEIVE_ADV 0x40 1).setParams
        { scan_type := 0, own_address_type := 0, scanning_filter_policy := 0 })).m_scanner.state
        = m_state_t.SCANNER_STATE_SEND_REQ
      ∧ (ll_scan_radio_cb true ((sample m_state_t.SCANNER_STATE_RECEIVE_ADV 0x40 1).setParams
          { scan_type := 0, own_address_type := 0, scanning_filter_policy := 0 })).hw.trace
        = [HwCall.radio_transmit_prepare Buffer.m_tx_buf] :=
  (radio_cb_independent_of_params true (sample m_state_t.SCANNER_STATE_RECEIVE_ADV 0x40 1)
    { scan_type := 0, own_address_type := 0, scanning_filter_policy := 0 }).2.2.2.2
      rfl (by decide) (by decide)

/-- C20: from a scanning state, every event other than `ll_scan_init` and
`ll_scan_start` leads to a scanning state, so after any run of such events the
state is still a scanning one and `ll_scan_prepare` and `ll_scan_reset` return
`COMMAND_DISALLOWED`; and in the not-initialised, initialised and idle states
both callbacks return the machine unchanged (no driver call, no register
write). -/
theorem scanning_closed_and_callbacks_inert_outside (m : Machine) :
    (m.scanning →
        (∀ op : Op, op.notInitOrStart → (step op m).scanning)
        ∧ (∀ ops : List Op, (∀ op ∈ ops, op.notInitOrStart) →
            (run ops m).scanning
            ∧ (∀ a b c, (ll_scan_prepare a b c (run ops m)).1
                = btle_status_codes_t.BTLE_STATUS_CODE_COMMAND_DISALLOWED)
            ∧ (ll_scan_reset (run ops m)).1
                = btle_status_codes_t.BTLE_STATUS_CODE_COMMAND_DISALLOWED))
      ∧ ((m.m_scanner.state = m_state_t.SCANNER_STATE_NOT_INITIALIZED
            ∨ m.m_scanner.state = m_state_t.SCANNER_STATE_INITIALIZED
            ∨ m.m_scanner.state = m_state_t.SCANNER_STATE_IDLE) →
          (∀ cv, ll_scan_radio_cb cv m = m) ∧ ll_scan_timer_cb m = m) := by
  constructor
  · intro hs
    refine ⟨fun op hop => step_scanning op m hop hs, ?_⟩
    intro ops hops
    have hrun : (run ops m).scanning :=
      run_induction Machine.scanning Op.notInitOrStart
        (fun op m hop h => step_scanning op m hop h) ops m hops hs
    exact ⟨hrun, fun a b c => (scanning_commands_disallowed _ hrun a b c).1,
      (scanning_commands_disallowed _ hrun 0 0 0).2⟩
  · intro hidle
    have hns : ¬ m.scanning := by
      intro hs
      rcases hidle with h | h | h <;> rcases hs with h2 | h2 | h2 <;> rw [h] at h2 <;> cases h2
    exact ⟨fun cv => radio_cb_not_scanning cv m hns, ll_scan_timer_cb_not_scanning m hns⟩

/-- Witness of `scanning_closed_and_callbacks_inert_outside`: from the
advertisement-receive state a run of a reception, two radio callbacks, a
refused prepare, a timer callback and a stop ends in a scanning state; and the
radio callback leaves an idle machine unchanged. -/
theorem scanning_closed_and_callbacks_inert_outside_witness :
    (run [Op.receive [0x40] 1, Op.radio_cb true, Op.radio_cb true, Op.prepare 1 1 1,
          Op.timer_cb, Op.stop] (sample m_state_t.SCANNER_STATE_RECEIVE_ADV 0 1)).scanning
      ∧ ll_scan_radio_cb true (sample m_state_t.SCANNER_STATE_IDLE 0x40 1)
        = sample m_state_t.SCANNER_STATE_IDLE 0x40 1 :=
  ⟨(((scanning_closed_and_callbacks_inert_outside
        (sample m_state_t.SCANNER_STATE_RECEIVE_ADV 0 1)).1 (Or.inl rfl)).2
      [Op.receive [0x40] 1, Op.radio_cb true, Op.radio_cb true, Op.prepare 1 1 1,
        Op.timer_cb, Op.stop] (by decide)).1,
   ((scanning_closed_and_callbacks_inert_outside
      (sample m_state_t.SCANNER_STATE_IDLE 0x40 1)).2 (Or.inr (Or.inr rfl))).1 true⟩

end LlScanner
